import Mathlib

/-!
Shallow embedding of the availability computation engine of the
MeetXaccel scheduling backend (`apps/availability/utils.py` and
`apps/events/utils.py`), together with theorems checking the
natural-language specification against it.

Modelling conventions:
* UTC instants and wall-clock values are `Int` seconds since the epoch
  (1970-01-01 00:00:00 UTC = 0); `timedelta(minutes=m)` becomes `m * 60`.
* A timezone (`zoneinfo.ZoneInfo`) is a structure of functions: wall-clock
  to UTC conversion, UTC offset at an instant, and the `dst()` component at
  an instant (`Option Int`, `none` modelling Python `None`).
* Timezone-aware `datetime` values compare and subtract by their UTC
  instant in Python, so a localized datetime is represented by its instant;
  the local wall-clock fields (`.hour`, `.date()`) are recovered through
  the timezone's offset function.
* Dates (`datetime.date`) are `Int` day numbers (days since 1970-01-01,
  which was a Thursday; Python `date.weekday()` has Monday = 0).
* Django querysets become explicit lists filtered in place; `timezone.now()`
  becomes an explicit `now : Int` parameter; the cache layer is not
  modelled (a cache miss recomputes, and the claims below concern the
  computation itself).
-/

namespace MeetX

/-- Seconds per day. -/
def secPerDay : Int := 86400

/-- UTC calendar date (day number) of a UTC instant, i.e. `.date()` of a
UTC-aware datetime. -/
def utcDate (t : Int) : Int := t.fdiv secPerDay

/-- Python `date.weekday()` (Monday = 0) of a day number; day 0
(1970-01-01) was a Thursday (weekday 3). -/
def dateWeekday (d : Int) : Int := (d + 3).emod 7

/-- A `zoneinfo.ZoneInfo` timezone, as the three functions the engine
uses. `wallToUtc` models `datetime.combine(...).replace(tzinfo=tz)`
followed by `.astimezone(utc)`; `utcOffset` and `dst` are the offset and
DST component at a given UTC instant (in seconds). -/
structure Tz where
  wallToUtc : Int → Int
  utcOffset : Int → Int
  dst : Int → Option Int

/-- Local wall-clock value (seconds) of a UTC instant in a timezone. -/
def Tz.localWall (z : Tz) (t : Int) : Int := t + z.utcOffset t

/-- `.date()` of a UTC instant localized to a timezone. -/
def Tz.localDate (z : Tz) (t : Int) : Int := (z.localWall t).fdiv secPerDay

/-- `.hour` (0–23) of a UTC instant localized to a timezone. -/
def Tz.localHour (z : Tz) (t : Int) : Int := ((z.localWall t).emod secPerDay) / 3600

/-- The UTC timezone: identity wall-clock conversion, zero offset,
`dst()` equal to `timedelta(0)`. -/
def utcTz : Tz := { wallToUtc := id, utcOffset := fun _ => 0, dst := fun _ => some 0 }

/-- `EventType` (read-only external entity; `apps/events/models.py` is not
under `src/`, so its scalar fields are taken as given data). Durations,
buffers, notice and horizon are minutes, as in the source. -/
structure EventType where
  id : Nat
  duration : Nat
  buffer_time_before : Nat
  buffer_time_after : Nat
  slot_interval_minutes : Nat
  min_scheduling_notice : Nat
  max_scheduling_horizon : Nat
  /-- `max_bookings_per_day`; `0` is falsy in Python, meaning no limit. -/
  max_bookings_per_day : Nat
  max_attendees : Nat
  /-- Modelled from the spec: `EventType.is_group_event()` (the model
  method is in `apps/events/models.py`, not under `src/`); treated as an
  attribute of the event type (group-capacity semantics). -/
  is_group : Bool
  /-- Modelled from the spec: `EventType.can_book_on_date(date)`, the
  active-date-range predicate (method body not under `src/`). -/
  can_book : Int → Bool

def EventType.is_group_event (et : EventType) : Bool := et.is_group

def EventType.can_book_on_date (et : EventType) (d : Int) : Bool := et.can_book d

/-- A confirmed-or-otherwise booking row. `confirmed_attendees` models
`booking.attendees.filter(status='confirmed').count()`. -/
structure Booking where
  start_time : Int
  end_time : Int
  event_type : EventType
  status : String
  confirmed_attendees : Nat

/-- `AvailabilityRule`. Times of day are seconds in 0–86399;
`event_type_ids = []` models an empty `event_types` M2M set (= all). -/
structure AvailabilityRule where
  day_of_week : Int
  start_time : Int
  end_time : Int
  event_type_ids : List Nat
  is_active : Bool

/-- Modelled from the spec: `AvailabilityRule.spans_midnight()` (model
method not under `src/`): end-of-day numerically before start means the
window continues past midnight. -/
def AvailabilityRule.spans_midnight (r : AvailabilityRule) : Bool :=
  r.end_time < r.start_time

/-- Modelled from the spec: `AvailabilityRule.applies_to_event_type`
(model method not under `src/`): empty scope set applies to all event
types, otherwise membership. -/
def AvailabilityRule.applies_to_event_type (r : AvailabilityRule) (et : EventType) : Bool :=
  r.event_type_ids.isEmpty || r.event_type_ids.contains et.id

/-- `DateOverrideRule`. -/
structure DateOverrideRule where
  date : Int
  is_available : Bool
  start_time : Option Int
  end_time : Option Int
  event_type_ids : List Nat
  is_active : Bool

/-- Modelled from the spec: `DateOverrideRule.spans_midnight()` (model
method not under `src/`). -/
def DateOverrideRule.spans_midnight (o : DateOverrideRule) : Bool :=
  match o.start_time, o.end_time with
  | some s, some e => e < s
  | _, _ => false

/-- `RecurringBlockedTime`; optional date bounds are day numbers. -/
structure RecurringBlockedTime where
  day_of_week : Int
  start_time : Int
  end_time : Int
  start_date : Option Int
  end_date : Option Int
  is_active : Bool

/-- Modelled from the spec: `RecurringBlockedTime.applies_to_date` (model
method not under `src/`): weekday match plus optional date bounds. -/
def RecurringBlockedTime.applies_to_date (b : RecurringBlockedTime) (d : Int) : Bool :=
  b.day_of_week = dateWeekday d &&
    (match b.start_date with | none => true | some sd => sd ≤ d) &&
    (match b.end_date with | none => true | some ed => d ≤ ed)

/-- Modelled from the spec: `RecurringBlockedTime.spans_midnight()`. -/
def RecurringBlockedTime.spans_midnight (b : RecurringBlockedTime) : Bool :=
  b.end_time < b.start_time

/-- `BlockedTime`: absolute UTC interval. -/
structure BlockedTime where
  start_datetime : Int
  end_datetime : Int
  is_active : Bool

/-- An external-calendar busy period (already fetched). -/
structure BusyPeriod where
  start_time : Int
  end_time : Int

/-- `BufferTime` per-organizer settings row (minutes). -/
structure BufferTime where
  default_buffer_before : Nat
  default_buffer_after : Nat
  minimum_gap : Nat
  slot_interval_minutes : Nat

/-- Organizer profile fields the engine reads. -/
structure Profile where
  timezone_name : String
  reasonable_hours_start : Int
  reasonable_hours_end : Int

structure Organizer where
  profile : Profile

/-- Per-invitee-timezone display info stored on a slot by the
multi-invitee reconciler (instants plus local hours). -/
structure InviteeTime where
  start_time : Int
  end_time : Int
  start_hour : Int
  end_hour : Int
deriving DecidableEq, Repr

/-- A slot dictionary as produced by the engine. Optional keys of the
Python dict are `Option`/default fields. -/
structure Slot where
  start_time : Int
  end_time : Int
  duration_minutes : Int
  available_spots : Int
  local_start_time : Option Int := none
  local_end_time : Option Int := none
  invitee_times : List (String × InviteeTime) := []
  fairness_score : Option ℚ := none
  dst_info : Option (Bool × Bool × Bool) := none
deriving DecidableEq, Repr

/-- The per-organizer data the engine queries, plus the timezone database
(`ZoneInfo` lookup; `none` = `ZoneInfoNotFoundError`). All rows belong to
the one organizer under consideration. -/
structure Db where
  availability_rules : List AvailabilityRule
  date_overrides : List DateOverrideRule
  blocked_times : List BlockedTime
  recurring_blocks : List RecurringBlockedTime
  bookings : List Booking
  external_busy_times : List BusyPeriod
  buffer_settings : BufferTime
  tzdb : String → Option Tz

/-! ### Conflict-filter helpers (`apps/availability/utils.py`) -/

/-- `is_slot_blocked_by_external_calendar`. -/
def is_slot_blocked_by_external_calendar (start_time end_time : Int)
    (external_busy_times : List BusyPeriod) : Bool :=
  external_busy_times.any fun busy =>
    decide (start_time < busy.end_time) && decide (end_time > busy.start_time)

/-- `is_slot_blocked`. -/
def is_slot_blocked (start_time end_time : Int) (blocked_times : List BlockedTime) : Bool :=
  blocked_times.any fun blocked =>
    decide (start_time < blocked.end_datetime) && decide (end_time > blocked.start_datetime)

/-- `is_slot_blocked_by_recurring`. -/
def is_slot_blocked_by_recurring (start_time end_time : Int)
    (recurring_blocks : List RecurringBlockedTime) (organizer_tz : Tz) : Bool :=
  recurring_blocks.any fun rb =>
    let slot_date := organizer_tz.localDate start_time
    if ¬ rb.applies_to_date slot_date then false
    else if rb.spans_midnight then
      -- part 1: start_time to the 23:59:59 sentinel
      let block_start_1 := organizer_tz.wallToUtc (slot_date * secPerDay + rb.start_time)
      let block_end_1 := organizer_tz.wallToUtc (slot_date * secPerDay + 86399)
      if decide (start_time < block_end_1) && decide (end_time > block_start_1) then true
      else
        -- part 2: midnight to end_time on the next day
        let block_start_2 := organizer_tz.wallToUtc ((slot_date + 1) * secPerDay)
        let block_end_2 := organizer_tz.wallToUtc ((slot_date + 1) * secPerDay + rb.end_time)
        decide (start_time < block_end_2) && decide (end_time > block_start_2)
    else
      let block_start := organizer_tz.wallToUtc (slot_date * secPerDay + rb.start_time)
      let block_end := organizer_tz.wallToUtc (slot_date * secPerDay + rb.end_time)
      decide (start_time < block_end) && decide (end_time > block_start)

/-- The overlap test a booking must pass to enter `overlapping_bookings`
in `is_slot_conflicting_with_bookings`: the candidate interval against the
booking widened by the booking's own event type's buffers. -/
def bookingOverlaps (start_time end_time : Int) (b : Booking) : Bool :=
  let booking_buffer_before := (b.event_type.buffer_time_before : Int) * 60
  let booking_buffer_after := (b.event_type.buffer_time_after : Int) * 60
  decide (start_time < b.end_time + booking_buffer_after) &&
    decide (end_time > b.start_time - booking_buffer_before)

/-- The group-capacity escape in `is_slot_conflicting_with_bookings`: the
overlapping booking is the same (group) event type at exactly the tested
start/end instants and has room for `attendee_count` more attendees. -/
def bookingGroupException (start_time end_time : Int) (event_type : EventType)
    (attendee_count : Nat) (b : Booking) : Bool :=
  decide (b.event_type.id = event_type.id) && event_type.is_group_event &&
    decide (b.start_time = start_time) && decide (b.end_time = end_time) &&
    decide (b.confirmed_attendees + attendee_count ≤ event_type.max_attendees)

/-- `is_slot_conflicting_with_bookings`. Note that the caller passes the
candidate interval already widened by the candidate event type's buffers. -/
def is_slot_conflicting_with_bookings (start_time end_time : Int)
    (existing_bookings : List Booking) (event_type : EventType)
    (attendee_count : Nat) : Bool :=
  let overlapping_bookings := existing_bookings.filter (bookingOverlaps start_time end_time)
  if overlapping_bookings.isEmpty then false
  else overlapping_bookings.any fun b =>
    ! bookingGroupException start_time end_time event_type attendee_count b

/-- `_exceeds_daily_booking_limit`. The Django `start_time__date` lookup
and the organizer-local `booking_date` are both taken in the organizer's
timezone here. The standalone DB query is modelled by the full booking
list `all_bookings`. -/
def exceeds_daily_booking_limit (event_type : EventType) (start_time : Int)
    (organizer_tz : Tz) (all_bookings : List Booking) : Bool :=
  if event_type.max_bookings_per_day = 0 then false
  else
    let booking_date := organizer_tz.localDate start_time
    let existing_count := (all_bookings.filter fun b =>
      decide (b.event_type.id = event_type.id) && decide (b.status = "confirmed") &&
        decide (organizer_tz.localDate b.start_time = booking_date)).length
    decide (existing_count ≥ event_type.max_bookings_per_day)

/-- `_get_available_spots_for_slot`. -/
def get_available_spots_for_slot (event_type : EventType) (start_time end_time : Int)
    (existing_bookings : List Booking) (requested_attendee_count : Nat) : Int :=
  if ¬ event_type.is_group_event then
    if requested_attendee_count = 1 then 1 else 0
  else
    match existing_bookings.find? (fun b =>
        decide (b.event_type.id = event_type.id) && decide (b.start_time = start_time) &&
          decide (b.end_time = end_time) && decide (b.status = "confirmed")) with
    | some b => max 0 ((event_type.max_attendees : Int) - (b.confirmed_attendees : Int))
    | none => (event_type.max_attendees : Int)

/-! ### Slot generation (`_generate_slots_for_time_range` and callers) -/

/-- The exception `_generate_slots_for_time_range` raises when a slot is
emitted: its localized-display branch reads the name `invitee_timezone`,
which is not in scope there (the parameter is `invitee_tz` and no module
global of that name exists), so Python raises
`NameError: name 'invitee_timezone' is not defined` (the quotes around
the name are elided here). The slot dictionary — including its
`available_spots` value — is built just before the failing lookup and is
discarded; `slots.append` is never reached. -/
def nameErrorInviteeTimezone : String :=
  "NameError: name invitee_timezone is not defined"

/-- The body of the `while current_slot_start + slot_duration <= range_end_utc`
loop of `_generate_slots_for_time_range`, with explicit fuel (the source
loop advances by at least `slot_interval` per iteration; the top-level
wrapper supplies fuel covering the whole range whenever the interval is
positive — with a zero interval the Python loop would not terminate). All
interval quantities are seconds. A candidate that passes every conflict
check reaches the emission block, whose localized-display line raises
`NameError` (see `nameErrorInviteeTimezone`); since no earlier iteration
can have appended a slot, the loop either ends with the (necessarily
empty) accumulator or propagates that exception. -/
def generateSlotsLoop (event_type : EventType) (org_tz : Tz) (_invitee_tz : Tz)
    (blocked_times : List BlockedTime) (recurring_blocks : List RecurringBlockedTime)
    (existing_bookings : List Booking) (external_busy_times : List BusyPeriod)
    (attendee_count : Nat) (all_bookings : List Booking) (now : Int)
    (range_end_utc slot_duration buffer_before buffer_after minimum_gap slot_interval : Int) :
    Nat → Int → Except String (List Slot)
  | 0, _ => .ok []
  | fuel + 1, current_slot_start =>
    let next := generateSlotsLoop event_type org_tz _invitee_tz blocked_times
      recurring_blocks existing_bookings external_busy_times attendee_count all_bookings now
      range_end_utc slot_duration buffer_before buffer_after minimum_gap slot_interval fuel
    if current_slot_start + slot_duration ≤ range_end_utc then
      let slot_end := current_slot_start + slot_duration
      if is_slot_blocked current_slot_start slot_end blocked_times then
        next (current_slot_start + slot_interval)
      else if is_slot_blocked_by_recurring current_slot_start slot_end recurring_blocks org_tz then
        next (current_slot_start + slot_interval)
      else if is_slot_blocked_by_external_calendar current_slot_start slot_end external_busy_times then
        next (current_slot_start + slot_interval)
      else if is_slot_conflicting_with_bookings (current_slot_start - buffer_before)
          (slot_end + buffer_after) existing_bookings event_type attendee_count then
        next (current_slot_start + slot_interval)
      else if current_slot_start < now + (event_type.min_scheduling_notice : Int) * 60 then
        next (current_slot_start + slot_interval)
      else if current_slot_start > now + (event_type.max_scheduling_horizon : Int) * 60 then
        .ok []  -- `break`: returns the accumulated slots, which are necessarily none
      else if exceeds_daily_booking_limit event_type current_slot_start org_tz all_bookings then
        next (current_slot_start + slot_interval)
      else
        -- the slot dictionary is built (its spot count is computed) ...
        let _slot : Slot :=
          { start_time := current_slot_start
            end_time := slot_end
            duration_minutes := (event_type.duration : Int)
            available_spots := get_available_spots_for_slot event_type current_slot_start
              slot_end existing_bookings attendee_count }
        -- ... and then the undefined name `invitee_timezone` is read
        .error nameErrorInviteeTimezone
    else .ok []

/-- `_generate_slots_for_time_range`. `org_tz` and `invitee_tz` are the
already-constructed `ZoneInfo` objects (the caller resolves the name
strings; an unknown name is an exception there). The function can only
return an empty list: the first admissible candidate raises `NameError`
in the emission block. -/
def generate_slots_for_time_range (date start_time end_time : Int) (event_type : EventType)
    (org_tz invitee_tz : Tz) (blocked_times : List BlockedTime)
    (recurring_blocks : List RecurringBlockedTime) (existing_bookings : List Booking)
    (external_busy_times : List BusyPeriod) (buffer_settings : BufferTime)
    (attendee_count : Nat) (all_bookings : List Booking) (now : Int) :
    Except String (List Slot) :=
  let range_start_utc := org_tz.wallToUtc (date * secPerDay + start_time)
  let range_end_utc := org_tz.wallToUtc (date * secPerDay + end_time)
  let slot_duration := (event_type.duration : Int) * 60
  let buffer_before := (event_type.buffer_time_before : Int) * 60
  let buffer_after := (event_type.buffer_time_after : Int) * 60
  let minimum_gap := (buffer_settings.minimum_gap : Int) * 60
  let slot_interval :=
    if event_type.slot_interval_minutes > 0 then (event_type.slot_interval_minutes : Int) * 60
    else (buffer_settings.slot_interval_minutes : Int) * 60
  generateSlotsLoop event_type org_tz invitee_tz blocked_times recurring_blocks
    existing_bookings external_busy_times attendee_count all_bookings now
    range_end_utc slot_duration buffer_before buffer_after minimum_gap slot_interval
    ((range_end_utc - range_start_utc).toNat + 1) range_start_utc

/-- `generate_slots_for_rule`: constructs `ZoneInfo(organizer_timezone)`
and `ZoneInfo(invitee_timezone)` itself (an unknown name raises there);
midnight-spanning rules split at the `23:59:59` sentinel (second 86399),
and an exception in the first half propagates before the second half
runs. -/
def generate_slots_for_rule (tzdb : String → Option Tz) (rule : AvailabilityRule) (date : Int)
    (event_type : EventType) (organizer_timezone invitee_timezone : String)
    (blocked_times : List BlockedTime)
    (recurring_blocks : List RecurringBlockedTime) (existing_bookings : List Booking)
    (external_busy_times : List BusyPeriod) (buffer_settings : BufferTime)
    (attendee_count : Nat) (all_bookings : List Booking) (now : Int) :
    Except String (List Slot) :=
  match tzdb organizer_timezone with
  | none => .error ("No time zone found with key " ++ organizer_timezone)
  | some org_tz =>
  match tzdb invitee_timezone with
  | none => .error ("No time zone found with key " ++ invitee_timezone)
  | some invitee_tz =>
  if rule.spans_midnight then
    match generate_slots_for_time_range date rule.start_time 86399 event_type org_tz
      invitee_tz blocked_times recurring_blocks existing_bookings external_busy_times
      buffer_settings attendee_count all_bookings now with
    | .error e => .error e
    | .ok s1 =>
      match generate_slots_for_time_range (date + 1) 0 rule.end_time event_type org_tz
        invitee_tz blocked_times recurring_blocks existing_bookings external_busy_times
        buffer_settings attendee_count all_bookings now with
      | .error e => .error e
      | .ok s2 => .ok (s1 ++ s2)
  else
    generate_slots_for_time_range date rule.start_time rule.end_time event_type org_tz
      invitee_tz blocked_times recurring_blocks existing_bookings external_busy_times
      buffer_settings attendee_count all_bookings now

/-- `generate_slots_for_override`. -/
def generate_slots_for_override (tzdb : String → Option Tz) (override : DateOverrideRule)
    (date : Int) (event_type : EventType) (organizer_timezone invitee_timezone : String)
    (blocked_times : List BlockedTime) (recurring_blocks : List RecurringBlockedTime)
    (existing_bookings : List Booking) (external_busy_times : List BusyPeriod)
    (buffer_settings : BufferTime) (attendee_count : Nat) (all_bookings : List Booking)
    (now : Int) : Except String (List Slot) :=
  match override.start_time, override.end_time with
  | some ov_start, some ov_end =>
    if ¬ override.is_available then .ok []
    else
      match tzdb organizer_timezone with
      | none => .error ("No time zone found with key " ++ organizer_timezone)
      | some org_tz =>
      match tzdb invitee_timezone with
      | none => .error ("No time zone found with key " ++ invitee_timezone)
      | some invitee_tz =>
      if override.spans_midnight then
        match generate_slots_for_time_range date ov_start 86399 event_type org_tz
          invitee_tz blocked_times recurring_blocks existing_bookings external_busy_times
          buffer_settings attendee_count all_bookings now with
        | .error e => .error e
        | .ok s1 =>
          match generate_slots_for_time_range (date + 1) 0 ov_end event_type org_tz
            invitee_tz blocked_times recurring_blocks existing_bookings external_busy_times
            buffer_settings attendee_count all_bookings now with
          | .error e => .error e
          | .ok s2 => .ok (s1 ++ s2)
      else
        generate_slots_for_time_range date ov_start ov_end event_type org_tz
          invitee_tz blocked_times recurring_blocks existing_bookings external_busy_times
          buffer_settings attendee_count all_bookings now
  | _, _ => .ok []

/-- The `for rule in day_rules` loop of `calculate_available_slots`: each
applicable rule's slots are appended, and an exception raised by a rule
propagates before later rules run. -/
def generateSlotsForDayRules (tzdb : String → Option Tz) (date : Int)
    (event_type : EventType) (organizer_timezone invitee_timezone : String)
    (blocked_times : List BlockedTime) (recurring_blocks : List RecurringBlockedTime)
    (existing_bookings : List Booking) (external_busy_times : List BusyPeriod)
    (buffer_settings : BufferTime) (attendee_count : Nat) (all_bookings : List Booking)
    (now : Int) : List AvailabilityRule → Except String (List Slot)
  | [] => .ok []
  | rule :: rest =>
    let tail := generateSlotsForDayRules tzdb date event_type organizer_timezone
      invitee_timezone blocked_times recurring_blocks existing_bookings external_busy_times
      buffer_settings attendee_count all_bookings now rest
    if rule.applies_to_event_type event_type then
      match generate_slots_for_rule tzdb rule date event_type organizer_timezone
        invitee_timezone blocked_times recurring_blocks existing_bookings
        external_busy_times buffer_settings attendee_count all_bookings now with
      | .error e => .error e
      | .ok s => tail.map fun r => s ++ r
    else tail

/-! ### Slot merging (`merge_overlapping_slots`) -/

/-- Sorting relation used by every `sorted(slots, key=...start_time)` /
`slots.sort(key=...start_time)` in the engine. Python sorts are stable;
`List.insertionSort` with this reflexive relation is the stable sort. -/
def slotLE (a b : Slot) : Prop := a.start_time ≤ b.start_time

instance : DecidableRel slotLE := fun a b => inferInstanceAs (Decidable (a.start_time ≤ b.start_time))

instance : IsTotal Slot slotLE := ⟨fun a b => Int.le_total a.start_time b.start_time⟩

instance : IsTrans Slot slotLE := ⟨fun _ _ _ h h' => le_trans h h'⟩

/-- The in-place merge of `next_slot` into `current_slot` performed by
`merge_overlapping_slots` when the two are adjacent or overlapping. -/
def mergeTwoSlots (current next : Slot) : Slot :=
  let new_end := max current.end_time next.end_time
  { current with
    end_time := new_end
    duration_minutes := (new_end - current.start_time).tdiv 60
    local_end_time :=
      if current.local_start_time.isSome && next.local_end_time.isSome then
        some (max (current.local_end_time.getD new_end) (next.local_end_time.getD next.end_time))
      else current.local_end_time
    available_spots := min current.available_spots next.available_spots }

/-- The walk of `merge_overlapping_slots` over the sorted slots: merge
when adjacent within the 5-minute (300 s) tolerance, else emit. -/
def mergeLoopTol (current : Slot) : List Slot → List Slot
  | [] => [current]
  | next :: rest =>
    if decide (current.end_time ≥ next.start_time) ||
        decide (current.end_time + 300 ≥ next.start_time) then
      mergeLoopTol (mergeTwoSlots current next) rest
    else
      current :: mergeLoopTol next rest

/-- `merge_overlapping_slots` (`apps/availability/utils.py`). -/
def merge_overlapping_slots (slots : List Slot) : List Slot :=
  match List.insertionSort slotLE slots with
  | [] => []
  | first :: rest => mergeLoopTol first rest

/-! ### DST safety pass (`calculate_dst_safe_time_slots`) -/

/-- Python truthiness of a `dst()` result (`None` and `timedelta(0)` are
falsy). -/
def dstTruthy : Option Int → Bool
  | none => false
  | some x => decide (x ≠ 0)

/-- `calculate_dst_safe_time_slots`. A failing `ZoneInfo` construction is
caught by the surrounding `try`, returning the original slots. -/
def calculate_dst_safe_time_slots (tzdb : String → Option Tz)
    (organizer_timezone invitee_timezone : String) (base_slots : List Slot) : List Slot :=
  match tzdb organizer_timezone, tzdb invitee_timezone with
  | some org_tz, some invitee_tz =>
    base_slots.filterMap fun slot =>
      let start_dst := org_tz.dst slot.start_time
      let end_dst := org_tz.dst slot.end_time
      if start_dst ≠ end_dst then
        none  -- DST transition during this slot: skip it
      else
        some { slot with
          local_start_time := some slot.start_time
          local_end_time := some slot.end_time
          dst_info := some (dstTruthy start_dst,
            dstTruthy (invitee_tz.dst slot.start_time), decide (start_dst ≠ end_dst)) }
  | _, _ => base_slots

/-! ### Multi-invitee reconciliation and fairness -/

/-- `validate_timezone`: `ZoneInfo` construction succeeds. -/
def validate_timezone (tzdb : String → Option Tz) (timezone_string : String) : Bool :=
  (tzdb timezone_string).isSome

/-- `get_reasonable_hours_for_timezone`: returns the provided hours
unchanged. -/
def get_reasonable_hours_for_timezone (_timezone_string : String)
    (reasonable_start reasonable_end : Int) : Int × Int :=
  (reasonable_start, reasonable_end)

/-- The five-tier bucket score of `calculate_slot_fairness_score`. -/
def fairnessTzScore (local_hour : Int) : ℚ :=
  if 10 ≤ local_hour ∧ local_hour ≤ 16 then 100
  else if 8 ≤ local_hour ∧ local_hour ≤ 18 then 80
  else if 7 ≤ local_hour ∧ local_hour ≤ 20 then 60
  else if 6 ≤ local_hour ∧ local_hour ≤ 22 then 40
  else 0

/-- `calculate_slot_fairness_score`: average bucket score of the local
start hours over the invitee-timezone dictionary. -/
def calculate_slot_fairness_score (invitee_times : List (String × InviteeTime)) : ℚ :=
  if invitee_times.isEmpty then 0
  else (invitee_times.map fun p => fairnessTzScore p.2.start_hour).sum / invitee_times.length

/-- Python dict insertion `invitee_times[tz_name] = ...`: replace in place
if the key exists, else append. -/
def upsertInviteeTime (key : String) (v : InviteeTime) :
    List (String × InviteeTime) → List (String × InviteeTime)
  | [] => [(key, v)]
  | (k, w) :: rest =>
    if k = key then (key, v) :: rest else (k, w) :: upsertInviteeTime key v rest

/-- The per-slot inner loop of `calculate_multi_invitee_intersection`:
walk the invitee timezones accumulating the `invitee_times` dict, failing
(`none`) as soon as a timezone is unknown, a local endpoint leaves the
reasonable hours, or the localized endpoints land on different dates. -/
def computeInviteeTimes (tzdb : String → Option Tz) (reasonable_start_hour reasonable_end_hour : Int)
    (slot_start_utc slot_end_utc : Int) :
    List String → List (String × InviteeTime) → Option (List (String × InviteeTime))
  | [], acc => some acc
  | tz_name :: rest, acc =>
    match tzdb tz_name with
    | none => none  -- invalid timezone: slot is not reasonable for all
    | some invitee_tz =>
      let hours := get_reasonable_hours_for_timezone tz_name reasonable_start_hour reasonable_end_hour
      if decide (invitee_tz.localHour slot_start_utc < hours.1) ||
          decide (invitee_tz.localHour slot_end_utc > hours.2) ||
          decide (invitee_tz.localDate slot_start_utc ≠ invitee_tz.localDate slot_end_utc) then
        none
      else
        computeInviteeTimes tzdb reasonable_start_hour reasonable_end_hour slot_start_utc
          slot_end_utc rest
          (upsertInviteeTime tz_name
            { start_time := slot_start_utc
              end_time := slot_end_utc
              start_hour := invitee_tz.localHour slot_start_utc
              end_hour := invitee_tz.localHour slot_end_utc } acc)

/-- Descending fairness-score order used by
`reasonable_slots.sort(key=...fairness_score..., reverse=True)`; the
missing-key default is 0, and the reflexive relation makes the stable sort
keep the original order of equal scores. -/
def slotFairnessGE (a b : Slot) : Prop := b.fairness_score.getD 0 ≤ a.fairness_score.getD 0

instance : DecidableRel slotFairnessGE :=
  fun a b => inferInstanceAs (Decidable (b.fairness_score.getD 0 ≤ a.fairness_score.getD 0))

instance : IsTotal Slot slotFairnessGE :=
  ⟨fun a b => (le_total (b.fairness_score.getD 0) (a.fairness_score.getD 0)).imp id id⟩

instance : IsTrans Slot slotFairnessGE := ⟨fun _ _ _ h h' => le_trans h' h⟩

/-- The survivor record built for a slot that is reasonable for all
invitees. -/
def attachInviteeTimes (slot : Slot) (its : List (String × InviteeTime)) : Slot :=
  { slot with
    invitee_times := its
    fairness_score := some (calculate_slot_fairness_score its) }

/-- The reasonable-hours resolution at the top of
`calculate_multi_invitee_intersection`: the organizer profile's hours when
an organizer is given, else the 7–22 defaults. -/
def reasonableHoursFor : Option Organizer → Int × Int
  | some o => (o.profile.reasonable_hours_start, o.profile.reasonable_hours_end)
  | none => (7, 22)

/-- `calculate_multi_invitee_intersection`. -/
def calculate_multi_invitee_intersection (tzdb : String → Option Tz)
    (organizer_slots : List Slot) (invitee_timezones : List String)
    (_primary_timezone : String) (organizer : Option Organizer) : List Slot :=
  if invitee_timezones.length ≤ 1 then organizer_slots
  else
    let reasonable_start_hour := (reasonableHoursFor organizer).1
    let reasonable_end_hour := (reasonableHoursFor organizer).2
    let reasonable_slots := organizer_slots.filterMap fun slot =>
      (computeInviteeTimes tzdb reasonable_start_hour reasonable_end_hour
        slot.start_time slot.end_time invitee_timezones []).map (attachInviteeTimes slot)
    List.insertionSort slotFairnessGE reasonable_slots

/-! ### The full availability pipeline (`calculate_available_slots`) -/

/-- The result dictionary of `calculate_available_slots` (performance
metrics are not modelled; the cache layer is bypassed, so `cache_hit` is
always `false`). -/
structure AvailabilityResult where
  slots : List Slot
  warnings : List String
  cache_hit : Bool
  total_slots : Nat
deriving DecidableEq, Repr

/-- The multi-invitee timezone-list validation at the top of
`calculate_available_slots`: invalid entries are skipped with a warning
(the source warning text quotes the name; the quotes are elided here). -/
def processInviteeTimezones (tzdb : String → Option Tz) :
    Option (List String) → List String × List String
  | none => ([], [])
  | some tzs =>
    (tzs.filter (validate_timezone tzdb),
      tzs.filterMap fun tz =>
        if validate_timezone tzdb tz then none
        else some ("Invalid timezone " ++ tz ++ " was skipped"))

/-- The day-by-day slot accumulation loop of `calculate_available_slots`,
with one fuel unit per day. The per-day generators resolve the timezone
name strings themselves; an exception they raise (including the
`NameError` of the emission block) aborts the whole loop. -/
def availabilityDayLoop (db : Db) (organizer : Organizer) (event_type : EventType)
    (invitee_timezone : String) (availability_rules : List AvailabilityRule)
    (date_overrides : List DateOverrideRule) (blocked_times : List BlockedTime)
    (recurring_blocks : List RecurringBlockedTime) (existing_bookings : List Booking)
    (external_busy_times : List BusyPeriod) (buffer_settings : BufferTime)
    (attendee_count : Nat) (now : Int) : Nat → Int → Except String (List Slot)
  | 0, _ => .ok []
  | fuel + 1, current_date =>
    let continueLoop := availabilityDayLoop db organizer event_type invitee_timezone
      availability_rules date_overrides blocked_times recurring_blocks existing_bookings
      external_busy_times buffer_settings attendee_count now fuel (current_date + 1)
    -- skip past dates
    if current_date < utcDate now then continueLoop
    else if ¬ event_type.can_book_on_date current_date then continueLoop
    else
      let day_slots : Except String (List Slot) :=
        match date_overrides.find? (fun o => o.date = current_date) with
        | some date_override =>
          if ¬ date_override.is_available then .ok []  -- entire day is blocked
          else
            generate_slots_for_override db.tzdb date_override current_date event_type
              organizer.profile.timezone_name invitee_timezone blocked_times
              recurring_blocks existing_bookings external_busy_times buffer_settings
              attendee_count db.bookings now
        | none =>
          let day_rules := availability_rules.filter
            (fun r => r.day_of_week = dateWeekday current_date)
          generateSlotsForDayRules db.tzdb current_date event_type
            organizer.profile.timezone_name invitee_timezone blocked_times
            recurring_blocks existing_bookings external_busy_times buffer_settings
            attendee_count db.bookings now day_rules
      match day_slots with
      | .error e => .error e
      | .ok s => continueLoop.map fun rest => s ++ rest

/-- The post-generation passes of `calculate_available_slots` in source
order: merge, sort by start time, DST safety, multi-invitee intersection
(only when more than one valid invitee timezone was supplied). -/
def postprocessSlots (tzdb : String → Option Tz) (organizer_timezone invitee_timezone : String)
    (valid_invitee_timezones : List String) (organizer : Organizer)
    (available_slots : List Slot) : List Slot :=
  let merged := merge_overlapping_slots available_slots
  let sorted := List.insertionSort slotLE merged
  let dst_safe := calculate_dst_safe_time_slots tzdb organizer_timezone invitee_timezone sorted
  if valid_invitee_timezones.length > 1 then
    calculate_multi_invitee_intersection tzdb dst_safe valid_invitee_timezones
      invitee_timezone (some organizer)
  else dst_safe

/-- `calculate_available_slots` (`apps/availability/utils.py`): the
functional availability engine, minus caching and profiling. A `ValueError`
raised for an invalid primary invitee timezone is the `.error` branch. -/
def calculate_available_slots (db : Db) (organizer : Organizer) (event_type : EventType)
    (start_date end_date : Int) (invitee_timezone : String) (attendee_count : Nat)
    (invitee_timezones : Option (List String)) (now : Int) :
    Except String AvailabilityResult :=
  if ¬ validate_timezone db.tzdb invitee_timezone then
    .error ("Invalid timezone: " ++ invitee_timezone)
  else
    let processed := processInviteeTimezones db.tzdb invitee_timezones
    let valid_invitee_timezones := processed.1
    let warnings := processed.2
    let organizer_timezone := organizer.profile.timezone_name
    let availability_rules := db.availability_rules.filter fun r =>
      r.is_active && (r.event_type_ids.isEmpty || r.event_type_ids.contains event_type.id)
    let date_overrides := db.date_overrides.filter fun o =>
      o.is_active && decide (start_date ≤ o.date) && decide (o.date ≤ end_date) &&
        (o.event_type_ids.isEmpty || o.event_type_ids.contains event_type.id)
    let blocked_times := db.blocked_times.filter fun b =>
      b.is_active && decide (utcDate b.start_datetime ≤ end_date) &&
        decide (utcDate b.end_datetime ≥ start_date)
    let recurring_blocks := db.recurring_blocks.filter (·.is_active)
    let existing_bookings := db.bookings.filter fun b =>
      decide (b.status = "confirmed") && decide (utcDate b.start_time ≤ end_date) &&
        decide (utcDate b.end_time ≥ start_date)
    (availabilityDayLoop db organizer event_type invitee_timezone availability_rules
        date_overrides blocked_times recurring_blocks existing_bookings
        db.external_busy_times db.buffer_settings attendee_count now
        (end_date - start_date + 1).toNat start_date).map fun raw =>
      let final := postprocessSlots db.tzdb organizer_timezone invitee_timezone
        valid_invitee_timezones organizer raw
      { slots := final
        warnings := warnings
        cache_hit := false
        total_slots := final.length }

/-! ### The class-based engine (`apps/events/utils.py`,
`AvailabilityCalculator`) — the parts the claims touch. -/

/-- `AvailabilityCalculator._merge_and_deduplicate_slots`: merge step of
the class-based engine; exact adjacency only (no 5-minute tolerance), and
the localized end time is recomputed from the merged end instant. -/
def mergeTwoSlotsExact (current next : Slot) : Slot :=
  let new_end := max current.end_time next.end_time
  { current with
    end_time := new_end
    duration_minutes := (new_end - current.start_time).tdiv 60
    local_end_time :=
      if current.local_end_time.isSome then some new_end else current.local_end_time }

/-- The walk of `_merge_and_deduplicate_slots` over the sorted slots. -/
def mergeLoopExact (current : Slot) : List Slot → List Slot
  | [] => [current]
  | next :: rest =>
    if decide (current.end_time ≥ next.start_time) then
      mergeLoopExact (mergeTwoSlotsExact current next) rest
    else
      current :: mergeLoopExact next rest

/-- `AvailabilityCalculator._merge_and_deduplicate_slots`. -/
def merge_and_deduplicate_slots (slots : List Slot) : List Slot :=
  match List.insertionSort slotLE slots with
  | [] => []
  | first :: rest => mergeLoopExact first rest

/-- `AvailabilityCalculator._is_blocked_by_blocked_times` (a queryset
existence test over active blocked times). -/
def is_blocked_by_blocked_times (db : Db) (start_time end_time : Int) : Bool :=
  db.blocked_times.any fun b =>
    b.is_active && decide (b.start_datetime < end_time) && decide (b.end_datetime > start_time)

/-- `AvailabilityCalculator._is_blocked_by_recurring_blocks`. -/
def is_blocked_by_recurring_blocks (db : Db) (org_tz : Tz) (start_time end_time : Int) : Bool :=
  let local_date := org_tz.localDate start_time
  let day_of_week := dateWeekday local_date
  let recurring_blocks := db.recurring_blocks.filter fun b =>
    decide (b.day_of_week = day_of_week) && b.is_active
  recurring_blocks.any fun block =>
    if ¬ block.applies_to_date local_date then false
    else if block.spans_midnight then
      let block_start_1 := org_tz.wallToUtc (local_date * secPerDay + block.start_time)
      let block_end_1 := org_tz.wallToUtc (local_date * secPerDay + 86399)
      if decide (start_time < block_end_1) && decide (end_time > block_start_1) then true
      else
        let block_start_2 := org_tz.wallToUtc ((local_date + 1) * secPerDay)
        let block_end_2 := org_tz.wallToUtc ((local_date + 1) * secPerDay + block.end_time)
        decide (start_time < block_end_2) && decide (end_time > block_start_2)
    else
      let block_start := org_tz.wallToUtc (local_date * secPerDay + block.start_time)
      let block_end := org_tz.wallToUtc (local_date * secPerDay + block.end_time)
      decide (start_time < block_end) && decide (end_time > block_start)

/-- `AvailabilityCalculator._is_blocked_by_existing_bookings`. The
queryset prefilters by unbuffered overlap; the loop then re-tests with the
booking's own buffers and applies the group-capacity escape (which here
does not require equal start/end instants). -/
def is_blocked_by_existing_bookings (db : Db) (event_type : EventType)
    (start_time end_time : Int) (attendee_count : Nat) : Bool :=
  let existing_bookings := db.bookings.filter fun b =>
    decide (b.status = "confirmed") && decide (b.start_time < end_time) &&
      decide (b.end_time > start_time)
  existing_bookings.any fun b =>
    let buffered_booking_start := b.start_time - (b.event_type.buffer_time_before : Int) * 60
    let buffered_booking_end := b.end_time + (b.event_type.buffer_time_after : Int) * 60
    if decide (start_time < buffered_booking_end) && decide (end_time > buffered_booking_start) then
      if b.event_type.is_group_event && decide (b.event_type.id = event_type.id) then
        decide (¬ (b.confirmed_attendees + attendee_count ≤ event_type.max_attendees))
      else true
    else false

/-- `AvailabilityCalculator._is_blocked_by_external_calendars` (busy
times modelled as the pre-fetched list; provider errors degrade to no
conflict). -/
def is_blocked_by_external_calendars (db : Db) (start_time end_time : Int) : Bool :=
  db.external_busy_times.any fun busy =>
    decide (start_time < busy.end_time) && decide (end_time > busy.start_time)

/-- `AvailabilityCalculator._exceeds_daily_booking_limit`. -/
def calc_exceeds_daily_booking_limit (db : Db) (event_type : EventType) (org_tz : Tz)
    (start_time : Int) : Bool :=
  if event_type.max_bookings_per_day = 0 then false
  else
    let booking_date := org_tz.localDate start_time
    let existing_count := (db.bookings.filter fun b =>
      decide (b.event_type.id = event_type.id) && decide (b.status = "confirmed") &&
        decide (org_tz.localDate b.start_time = booking_date)).length
    decide (existing_count ≥ event_type.max_bookings_per_day)

/-- `AvailabilityCalculator._is_slot_available`: the conflict filter the
booking-creation path re-runs. `org_tz` is the resolved
`ZoneInfo(organizer.profile.timezone_name)`. -/
def is_slot_available (db : Db) (event_type : EventType) (org_tz : Tz)
    (start_time end_time : Int) (attendee_count : Nat)
    (buffer_before buffer_after : Int) (now : Int) : Bool :=
  let buffered_start := start_time - buffer_before
  let buffered_end := end_time + buffer_after
  if decide (start_time < now + (event_type.min_scheduling_notice : Int) * 60) then false
  else if decide (start_time > now + (event_type.max_scheduling_horizon : Int) * 60) then false
  else if is_blocked_by_blocked_times db buffered_start buffered_end then false
  else if is_blocked_by_recurring_blocks db org_tz buffered_start buffered_end then false
  else if is_blocked_by_existing_bookings db event_type buffered_start buffered_end
      attendee_count then false
  else if is_blocked_by_external_calendars db buffered_start buffered_end then false
  else if calc_exceeds_daily_booking_limit db event_type org_tz start_time then false
  else true

/-! ### Booking creation (`create_booking_with_validation`) -/

/-- The request payload of `create_booking_with_validation`. -/
structure BookingData where
  start_time : Int
  attendee_count : Nat
  invitee_name : String
  invitee_email : String
  invitee_phone : String
  invitee_timezone : String

/-- The outcome of `create_booking_with_validation`: the returned
`(booking, created, errors)` triple, plus the booking store after the
call (the transaction leaves it unchanged on every error path). -/
structure CreateBookingResult where
  booking : Option Booking
  created : Bool
  errors : List String
  bookings_after : List Booking

/-- `create_booking_with_validation`. Custom-question validation
(`validate_custom_answers`, whose question model lives outside `src/`) is
kept as an explicit function parameter; it runs only after the
availability re-check. New bookings and attendees are created with
confirmed status (spec: `confirmed` is the status relevant to conflicts).
An unknown organizer timezone is the generic caught-exception path. -/
def create_booking_with_validation (db : Db) (event_type : EventType)
    (organizer : Organizer) (booking_data : BookingData)
    (custom_answers : List (Nat × String))
    (validate_custom_answers : EventType → List (Nat × String) → List String)
    (now : Int) : CreateBookingResult :=
  match db.tzdb organizer.profile.timezone_name with
  | none =>
    { booking := none, created := false
      errors := ["Failed to create booking: unknown organizer timezone"]
      bookings_after := db.bookings }
  | some org_tz =>
    let start_time := booking_data.start_time
    let attendee_count := booking_data.attendee_count
    let end_time := start_time + (event_type.duration : Int) * 60
    -- final availability check (race condition prevention)
    if ¬ is_slot_available db event_type org_tz start_time end_time attendee_count
        ((event_type.buffer_time_before : Int) * 60)
        ((event_type.buffer_time_after : Int) * 60) now then
      { booking := none, created := false
        errors := ["Selected time slot is no longer available"]
        bookings_after := db.bookings }
    else if ¬ custom_answers.isEmpty ∧
        ¬ (validate_custom_answers event_type custom_answers).isEmpty then
      { booking := none, created := false
        errors := validate_custom_answers event_type custom_answers
        bookings_after := db.bookings }
    else
      let existing_booking :=
        if event_type.is_group_event then
          db.bookings.find? fun b =>
            decide (b.event_type.id = event_type.id) && decide (b.start_time = start_time) &&
              decide (b.end_time = end_time) && decide (b.status = "confirmed")
        else none
      match existing_booking with
      | some b =>
        -- add the attendee to the existing group booking
        let updated := { b with confirmed_attendees := b.confirmed_attendees + 1 }
        { booking := some updated, created := false, errors := []
          bookings_after := db.bookings.map fun x =>
            if decide (x.event_type.id = b.event_type.id) && decide (x.start_time = b.start_time) &&
                decide (x.end_time = b.end_time) && decide (x.status = "confirmed") then
              updated
            else x }
      | none =>
        let booking : Booking :=
          { start_time := start_time
            end_time := end_time
            event_type := event_type
            status := "confirmed"
            confirmed_attendees := if event_type.is_group_event then 1 else 0 }
        { booking := some booking, created := true, errors := []
          bookings_after := db.bookings ++ [booking] }

/-! ### Interval relations used by the merge invariants -/

/-- Consecutive output slots of `merge_overlapping_slots`: separated by
strictly more than the 5-minute tolerance, with non-decreasing starts. -/
def slotsSeparatedTol (a b : Slot) : Prop :=
  a.end_time + 300 < b.start_time ∧ a.start_time ≤ b.start_time

/-- Consecutive output slots of `_merge_and_deduplicate_slots`: strictly
separated, with non-decreasing starts. -/
def slotsSeparatedExact (a b : Slot) : Prop :=
  a.end_time < b.start_time ∧ a.start_time ≤ b.start_time

/-- Two slots do not overlap as UTC intervals. -/
def slotsDisjoint (a b : Slot) : Prop :=
  a.end_time ≤ b.start_time ∨ b.end_time ≤ a.start_time

instance : IsTrans Slot slotsSeparatedTol :=
  ⟨fun _ _ _ h h' => ⟨lt_of_lt_of_le h.1 h'.2, le_trans h.2 h'.2⟩⟩

instance : IsTrans Slot slotsSeparatedExact :=
  ⟨fun _ _ _ h h' => ⟨lt_of_lt_of_le h.1 h'.2, le_trans h.2 h'.2⟩⟩

/-! ### Specification-side definitions (for refinement comparison) -/

/-- The five-tier bucket exactly as the specification words it: 100 for
local hours 10–16, 80 for 8–18, 60 for 7–20, 40 for 6–22, 0 otherwise. -/
def specBucketScore (local_hour : Int) : ℚ :=
  if 10 ≤ local_hour ∧ local_hour ≤ 16 then 100
  else if 8 ≤ local_hour ∧ local_hour ≤ 18 then 80
  else if 7 ≤ local_hour ∧ local_hour ≤ 20 then 60
  else if 6 ≤ local_hour ∧ local_hour ≤ 22 then 40
  else 0

/-- The fairness score as the specification words it: the average of the
bucket scores of the local start hours across the invitee timezones. -/
def specFairnessScore (invitee_times : List (String × InviteeTime)) : ℚ :=
  (invitee_times.map fun p => specBucketScore p.2.start_hour).sum / invitee_times.length

/-- Sort key of the fairness ranking (`x.get('fairness_score', 0)`). -/
def slotScore (s : Slot) : ℚ := s.fairness_score.getD 0

/-! ### Concrete test fixtures (used by counterexamples and witnesses) -/

/-- A timezone database knowing only the UTC zone under two names. -/
def utcOnlyTzdb : String → Option Tz :=
  fun s => if s = "UTC" ∨ s = "Etc/UTC" then some utcTz else none

/-- Scenario-example-1 event type: 30 minutes, no buffers, slots every 30
minutes, unconstrained notice/horizon/limits. -/
def scenario1_event_type : EventType :=
  { id := 1, duration := 30, buffer_time_before := 0, buffer_time_after := 0
    slot_interval_minutes := 30, min_scheduling_notice := 0
    max_scheduling_horizon := 100000, max_bookings_per_day := 0
    max_attendees := 1, is_group := false, can_book := fun _ => true }

/-- Scenario-example-1 rule: Monday 09:00–17:00 (seconds of day). -/
def scenario1_rule : AvailabilityRule :=
  { day_of_week := 0, start_time := 32400, end_time := 61200
    event_type_ids := [], is_active := true }

def scenario1_buffer : BufferTime :=
  { default_buffer_before := 0, default_buffer_after := 0
    minimum_gap := 0, slot_interval_minutes := 0 }

def scenario1_db : Db :=
  { availability_rules := [scenario1_rule], date_overrides := []
    blocked_times := [], recurring_blocks := [], bookings := []
    external_busy_times := [], buffer_settings := scenario1_buffer
    tzdb := utcOnlyTzdb }

/-- A UTC organizer with default reasonable hours. -/
def scenario1_organizer : Organizer := ⟨⟨"UTC", 7, 22⟩⟩

/-- The empty result dictionary — the only successful outcome the
pipeline can produce, since the slot generator raises on its first
admitted candidate. (Day number 4 = 1970-01-05, a Monday; 09:00 UTC on it
is instant 378000 and 17:00 is 406800.) -/
def empty_result : AvailabilityResult :=
  { slots := [], warnings := [], cache_hit := false, total_slots := 0 }

/-- The group event type of the C1 fixture: 30 minutes with 10-minute
buffers on both sides, capacity 3. -/
def c1_event_type : EventType :=
  { id := 1, duration := 30, buffer_time_before := 10, buffer_time_after := 10
    slot_interval_minutes := 30, min_scheduling_notice := 0
    max_scheduling_horizon := 100000, max_bookings_per_day := 0
    max_attendees := 3, is_group := true, can_book := fun _ => true }

/-- A confirmed one-attendee booking of the same event type occupying
exactly the buffered bounds of the 09:00–09:30 candidate (08:50–09:40 on
Monday day 4) — the interval the conflict filter actually receives. -/
def c1_booking : Booking :=
  { start_time := 377400, end_time := 380400, event_type := c1_event_type
    status := "confirmed", confirmed_attendees := 1 }

/-- A confirmed one-attendee booking of the same event type at exactly the
09:00–09:30 candidate's own start/end instants — the situation the claim's
group exception describes. -/
def c1_booking_exact : Booking :=
  { start_time := 378000, end_time := 379800, event_type := c1_event_type
    status := "confirmed", confirmed_attendees := 1 }

/-- Two separate Monday windows (09:00–10:00 and 11:00–12:00) for
observing a nontrivially disjoint output. -/
def c3_rule_morning : AvailabilityRule :=
  { day_of_week := 0, start_time := 32400, end_time := 36000
    event_type_ids := [], is_active := true }

def c3_rule_noon : AvailabilityRule :=
  { day_of_week := 0, start_time := 39600, end_time := 43200
    event_type_ids := [], is_active := true }

/-- A blocked time covering all of Monday day 4, so every candidate of
both windows is skipped by `is_slot_blocked` and the generator succeeds
(with nothing accumulated) instead of reaching the emission block. -/
def c3_blocked_monday : BlockedTime :=
  { start_datetime := 345600, end_datetime := 432000, is_active := true }

def c3_db : Db :=
  { availability_rules := [c3_rule_morning, c3_rule_noon], date_overrides := []
    blocked_times := [c3_blocked_monday], recurring_blocks := [], bookings := []
    external_busy_times := [], buffer_settings := scenario1_buffer
    tzdb := utcOnlyTzdb }

/-- C6 fixture: an event type with a 60-minute minimum scheduling notice,
so a request for an instant before `now + 60min` fails the re-check. -/
def c6_event_type : EventType :=
  { id := 7, duration := 30, buffer_time_before := 0, buffer_time_after := 0
    slot_interval_minutes := 30, min_scheduling_notice := 60
    max_scheduling_horizon := 100000, max_bookings_per_day := 0
    max_attendees := 1, is_group := false, can_book := fun _ => true }

def c6_db : Db :=
  { availability_rules := [], date_overrides := [], blocked_times := []
    recurring_blocks := [], bookings := [], external_busy_times := []
    buffer_settings := scenario1_buffer, tzdb := utcOnlyTzdb }

def c6_booking_data : BookingData :=
  { start_time := 600, attendee_count := 1, invitee_name := "A"
    invitee_email := "a@example.com", invitee_phone := ""
    invitee_timezone := "UTC" }

/-- A timezone whose `dst()` component switches from 0 to 3600 at instant
1000 (a DST spring-forward), for exercising the DST-safety pass. -/
def dstShiftTz : Tz :=
  { wallToUtc := id, utcOffset := fun _ => 0
    dst := fun t => if t < 1000 then some 0 else some 3600 }

def c5_tzdb : String → Option Tz :=
  fun s => if s = "Org/Shifty" then some dstShiftTz
    else if s = "UTC" then some utcTz else none

def c5_slot_before : Slot :=
  { start_time := 0, end_time := 500, duration_minutes := 8, available_spots := 1 }

def c5_slot_crossing : Slot :=
  { start_time := 900, end_time := 1100, duration_minutes := 3, available_spots := 1 }

def c5_slot_after : Slot :=
  { start_time := 1200, end_time := 1500, duration_minutes := 5, available_spots := 1 }

/-- C8 fixture: a slot at 22:00–22:30 UTC on day 0. Its local end hour in
UTC equals the default reasonable end hour 22. -/
def c8_slot : Slot :=
  { start_time := 79200, end_time := 81000, duration_minutes := 30, available_spots := 1 }

def c8_invitee_times : List (String × InviteeTime) :=
  [("UTC", { start_time := 79200, end_time := 81000, start_hour := 22, end_hour := 22 }),
   ("Etc/UTC", { start_time := 79200, end_time := 81000, start_hour := 22, end_hour := 22 })]

/-- The record the reconciler returns for `c8_slot` (its fairness score,
the average bucket score of local hour 22 twice, evaluates to 40). -/
def c8_kept : Slot :=
  { start_time := 79200, end_time := 81000, duration_minutes := 30, available_spots := 1
    invitee_times := c8_invitee_times
    fairness_score := some (calculate_slot_fairness_score c8_invitee_times) }

/-- C9 fixture: a midday slot (local hour 11, bucket 100) and a late slot
(local hour 22, bucket 40), both on day 0, in time-ascending order. -/
def c9_slot_midday : Slot :=
  { start_time := 39600, end_time := 41400, duration_minutes := 30, available_spots := 1 }

def c9_slot_late : Slot := c8_slot

/-- The enriched survivors of the DST pass on the C5 fixture. -/
def c5_kept_before : Slot :=
  { c5_slot_before with
    local_start_time := some 0
    local_end_time := some 500
    dst_info := some (false, false, false) }

def c5_kept_after : Slot :=
  { c5_slot_after with
    local_start_time := some 1200
    local_end_time := some 1500
    dst_info := some (true, false, false) }

/-! ## Lemmas about the slot generator -/

set_option maxHeartbeats 1600000 in
/-- The generation loop can only succeed with the empty slot list: the
only `.ok` outcomes are the exhausted range, exhausted fuel and the
horizon `break`, all reached before anything was accumulated, while every
admitted candidate ends in the emission block's `NameError`. -/
theorem generateSlotsLoop_ok_nil
    {event_type : EventType} {org_tz invitee_tz : Tz}
    {blocked_times : List BlockedTime} {recurring_blocks : List RecurringBlockedTime}
    {existing_bookings : List Booking} {external_busy_times : List BusyPeriod}
    {attendee_count : Nat} {all_bookings : List Booking} {now : Int}
    {range_end_utc slot_duration buffer_before buffer_after minimum_gap slot_interval : Int} :
    ∀ (fuel : Nat) (cur : Int) (l : List Slot),
      generateSlotsLoop event_type org_tz invitee_tz blocked_times recurring_blocks
        existing_bookings external_busy_times attendee_count all_bookings now
        range_end_utc slot_duration buffer_before buffer_after minimum_gap slot_interval
        fuel cur = .ok l → l = [] := by
  intro fuel
  induction fuel with
  | zero =>
    intro cur l h
    simp only [generateSlotsLoop] at h
    injection h with h
    exact h.symm
  | succ n ih =>
    intro cur l h
    simp only [generateSlotsLoop] at h
    split at h
    case isFalse =>
      injection h with h
      exact h.symm
    case isTrue hrange =>
      split at h
      case isTrue _h => exact ih _ _ h
      case isFalse _h1 =>
        split at h
        case isTrue _h => exact ih _ _ h
        case isFalse _h2 =>
          split at h
          case isTrue _h => exact ih _ _ h
          case isFalse _h3 =>
            split at h
            case isTrue _h => exact ih _ _ h
            case isFalse _h4 =>
              split at h
              case isTrue _h => exact ih _ _ h
              case isFalse _h5 =>
                split at h
                case isTrue _h =>
                  injection h with h
                  exact h.symm
                case isFalse _h6 =>
                  split at h
                  case isTrue _h => exact ih _ _ h
                  case isFalse _h7 => exact Except.noConfusion h

/-- `_generate_slots_for_time_range` can only succeed empty. -/
theorem generate_slots_for_time_range_ok_nil {date st en : Int} {event_type : EventType}
    {org_tz invitee_tz : Tz} {blocked_times : List BlockedTime}
    {recurring_blocks : List RecurringBlockedTime} {existing_bookings : List Booking}
    {external_busy_times : List BusyPeriod} {buffer_settings : BufferTime}
    {attendee_count : Nat} {all_bookings : List Booking} {now : Int} {l : List Slot}
    (h : generate_slots_for_time_range date st en event_type org_tz invitee_tz
      blocked_times recurring_blocks existing_bookings external_busy_times buffer_settings
      attendee_count all_bookings now = .ok l) : l = [] := by
  simp only [generate_slots_for_time_range] at h
  exact generateSlotsLoop_ok_nil _ _ _ h

/-- `generate_slots_for_rule` can only succeed empty. -/
theorem generate_slots_for_rule_ok_nil {tzdb : String → Option Tz}
    {rule : AvailabilityRule} {date : Int} {event_type : EventType}
    {organizer_timezone invitee_timezone : String} {blocked_times : List BlockedTime}
    {recurring_blocks : List RecurringBlockedTime} {existing_bookings : List Booking}
    {external_busy_times : List BusyPeriod} {buffer_settings : BufferTime}
    {attendee_count : Nat} {all_bookings : List Booking} {now : Int} {l : List Slot}
    (h : generate_slots_for_rule tzdb rule date event_type organizer_timezone
      invitee_timezone blocked_times recurring_blocks existing_bookings external_busy_times
      buffer_settings attendee_count all_bookings now = .ok l) : l = [] := by
  unfold generate_slots_for_rule at h
  split at h
  · exact Except.noConfusion h
  · split at h
    · exact Except.noConfusion h
    · split at h
      · split at h
        · exact Except.noConfusion h
        · next s1 h1 =>
          split at h
          · exact Except.noConfusion h
          · next s2 h2 =>
            injection h with h
            rw [generate_slots_for_time_range_ok_nil h1,
              generate_slots_for_time_range_ok_nil h2] at h
            exact h.symm
      · exact generate_slots_for_time_range_ok_nil h

/-- `generate_slots_for_override` can only succeed empty. -/
theorem generate_slots_for_override_ok_nil {tzdb : String → Option Tz}
    {override : DateOverrideRule} {date : Int} {event_type : EventType}
    {organizer_timezone invitee_timezone : String} {blocked_times : List BlockedTime}
    {recurring_blocks : List RecurringBlockedTime} {existing_bookings : List Booking}
    {external_busy_times : List BusyPeriod} {buffer_settings : BufferTime}
    {attendee_count : Nat} {all_bookings : List Booking} {now : Int} {l : List Slot}
    (h : generate_slots_for_override tzdb override date event_type organizer_timezone
      invitee_timezone blocked_times recurring_blocks existing_bookings external_busy_times
      buffer_settings attendee_count all_bookings now = .ok l) : l = [] := by
  unfold generate_slots_for_override at h
  split at h
  · split at h
    · injection h with h
      exact h.symm
    · split at h
      · exact Except.noConfusion h
      · split at h
        · exact Except.noConfusion h
        · split at h
          · split at h
            · exact Except.noConfusion h
            · next s1 h1 =>
              split at h
              · exact Except.noConfusion h
              · next s2 h2 =>
                injection h with h
                rw [generate_slots_for_time_range_ok_nil h1,
                  generate_slots_for_time_range_ok_nil h2] at h
                exact h.symm
          · exact generate_slots_for_time_range_ok_nil h
  · injection h with h
    exact h.symm

/-- Inverting a successful `Except.map`. -/
theorem except_map_ok {α β γ : Type} {f : α → β} {x : Except γ α} {r : β}
    (h : x.map f = .ok r) : ∃ a, x = .ok a ∧ r = f a := by
  cases x with
  | error e => simp [Except.map] at h
  | ok a =>
    refine ⟨a, rfl, ?_⟩
    simpa [Except.map] using h.symm

/-- The per-day rule loop can only succeed empty. -/
theorem generateSlotsForDayRules_ok_nil {tzdb : String → Option Tz} {date : Int}
    {event_type : EventType} {organizer_timezone invitee_timezone : String}
    {blocked_times : List BlockedTime} {recurring_blocks : List RecurringBlockedTime}
    {existing_bookings : List Booking} {external_busy_times : List BusyPeriod}
    {buffer_settings : BufferTime} {attendee_count : Nat} {all_bookings : List Booking}
    {now : Int} :
    ∀ (rules : List AvailabilityRule) (l : List Slot),
      generateSlotsForDayRules tzdb date event_type organizer_timezone invitee_timezone
        blocked_times recurring_blocks existing_bookings external_busy_times
        buffer_settings attendee_count all_bookings now rules = .ok l → l = [] := by
  intro rules
  induction rules with
  | nil =>
    intro l h
    simp only [generateSlotsForDayRules] at h
    injection h with h
    exact h.symm
  | cons rule rest ih =>
    intro l h
    simp only [generateSlotsForDayRules] at h
    split at h
    · split at h
      · exact Except.noConfusion h
      · next s hs =>
        obtain ⟨a, ha, hl⟩ := except_map_ok h
        rw [generate_slots_for_rule_ok_nil hs, ih _ ha] at hl
        simpa using hl
    · exact ih _ h

/-- The day loop of `calculate_available_slots` can only succeed empty. -/
theorem availabilityDayLoop_ok_nil {db : Db} {organizer : Organizer}
    {event_type : EventType} {invitee_timezone : String}
    {availability_rules : List AvailabilityRule} {date_overrides : List DateOverrideRule}
    {blocked_times : List BlockedTime} {recurring_blocks : List RecurringBlockedTime}
    {existing_bookings : List Booking} {external_busy_times : List BusyPeriod}
    {buffer_settings : BufferTime} {attendee_count : Nat} {now : Int} :
    ∀ (fuel : Nat) (d : Int) (l : List Slot),
      availabilityDayLoop db organizer event_type invitee_timezone availability_rules
        date_overrides blocked_times recurring_blocks existing_bookings external_busy_times
        buffer_settings attendee_count now fuel d = .ok l → l = [] := by
  intro fuel
  induction fuel with
  | zero =>
    intro d l h
    simp only [availabilityDayLoop] at h
    injection h with h
    exact h.symm
  | succ n ih =>
    intro d l h
    simp only [availabilityDayLoop] at h
    split at h
    · exact ih _ _ h
    · split at h
      · exact ih _ _ h
      · split at h
        · exact Except.noConfusion h
        · next s hs =>
          obtain ⟨a, ha, hl⟩ := except_map_ok h
          have hs0 : s = [] := by
            split at hs
            · split at hs
              · injection hs with hs
                exact hs.symm
              · exact generate_slots_for_override_ok_nil hs
            · exact generateSlotsForDayRules_ok_nil _ _ hs
          rw [hs0, ih _ _ ha] at hl
          simpa using hl

theorem calculate_dst_safe_nil (tzdb : String → Option Tz) (oname iname : String) :
    calculate_dst_safe_time_slots tzdb oname iname [] = [] := by
  unfold calculate_dst_safe_time_slots
  rcases tzdb oname with _ | o
  · rfl
  · rcases tzdb iname with _ | i <;> rfl

theorem calculate_multi_nil (tzdb : String → Option Tz) (tzs : List String)
    (primary : String) (org : Option Organizer) :
    calculate_multi_invitee_intersection tzdb [] tzs primary org = [] := by
  unfold calculate_multi_invitee_intersection
  split <;> rfl

theorem postprocess_nil (tzdb : String → Option Tz) (oname iname : String)
    (tzs : List String) (organizer : Organizer) :
    postprocessSlots tzdb oname iname tzs organizer [] = [] := by
  have h1 : postprocessSlots tzdb oname iname tzs organizer [] =
      (if tzs.length > 1 then
        calculate_multi_invitee_intersection tzdb
          (calculate_dst_safe_time_slots tzdb oname iname []) tzs iname (some organizer)
       else calculate_dst_safe_time_slots tzdb oname iname []) := rfl
  rw [h1, calculate_dst_safe_nil]
  split
  · exact calculate_multi_nil _ _ _ _
  · rfl

/-- Inverting a successful pipeline run: the primary timezone validated,
the day loop succeeded on the filtered data, and the resulting slots are
its postprocessed output. -/
theorem calculate_available_slots_ok {db : Db} {organizer : Organizer}
    {event_type : EventType} {start_date end_date : Int} {invitee_timezone : String}
    {attendee_count : Nat} {invitee_timezones : Option (List String)} {now : Int}
    {r : AvailabilityResult}
    (h : calculate_available_slots db organizer event_type start_date end_date
      invitee_timezone attendee_count invitee_timezones now = .ok r) :
    validate_timezone db.tzdb invitee_timezone = true ∧
    ∃ raw,
      availabilityDayLoop db organizer event_type invitee_timezone
        (db.availability_rules.filter fun rule =>
          rule.is_active && (rule.event_type_ids.isEmpty ||
            rule.event_type_ids.contains event_type.id))
        (db.date_overrides.filter fun o =>
          o.is_active && decide (start_date ≤ o.date) && decide (o.date ≤ end_date) &&
            (o.event_type_ids.isEmpty || o.event_type_ids.contains event_type.id))
        (db.blocked_times.filter fun b =>
          b.is_active && decide (utcDate b.start_datetime ≤ end_date) &&
            decide (utcDate b.end_datetime ≥ start_date))
        (db.recurring_blocks.filter (·.is_active))
        (db.bookings.filter fun b =>
          decide (b.status = "confirmed") && decide (utcDate b.start_time ≤ end_date) &&
            decide (utcDate b.end_time ≥ start_date))
        db.external_busy_times db.buffer_settings attendee_count now
        (end_date - start_date + 1).toNat start_date = .ok raw ∧
      r.slots = postprocessSlots db.tzdb organizer.profile.timezone_name
        invitee_timezone (processInviteeTimezones db.tzdb invitee_timezones).1
        organizer raw := by
  unfold calculate_available_slots at h
  split at h
  · cases h
  · next hval =>
    refine ⟨by simpa using hval, ?_⟩
    obtain ⟨raw, hraw, hr⟩ := except_map_ok h
    exact ⟨raw, hraw, by rw [hr]⟩

/-- Every successful availability computation returns zero slots: raw
generation can only succeed empty, and post-processing preserves
emptiness. -/
theorem calculate_available_slots_ok_empty {db : Db} {organizer : Organizer}
    {event_type : EventType} {start_date end_date : Int} {invitee_timezone : String}
    {attendee_count : Nat} {invitee_timezones : Option (List String)} {now : Int}
    {r : AvailabilityResult}
    (h : calculate_available_slots db organizer event_type start_date end_date
      invitee_timezone attendee_count invitee_timezones now = .ok r) :
    r.slots = [] := by
  obtain ⟨-, raw, hraw, hslots⟩ := calculate_available_slots_ok h
  rw [hslots, availabilityDayLoop_ok_nil _ _ _ hraw, postprocess_nil]

/-- A `false` conflict verdict means every overlapping booking satisfied
the group-capacity escape. -/
theorem not_conflicting_booking {s e : Int} {bookings : List Booking}
    {event_type : EventType} {k : Nat}
    (h : is_slot_conflicting_with_bookings s e bookings event_type k = false) :
    ∀ B ∈ bookings, bookingOverlaps s e B = true →
      bookingGroupException s e event_type k B = true := by
  intro B hB hov
  have hBf : B ∈ bookings.filter (bookingOverlaps s e) := List.mem_filter.mpr ⟨hB, hov⟩
  have hu : is_slot_conflicting_with_bookings s e bookings event_type k =
      (if (bookings.filter (bookingOverlaps s e)).isEmpty then false
       else (bookings.filter (bookingOverlaps s e)).any fun b =>
         ! bookingGroupException s e event_type k b) := rfl
  rw [hu] at h
  split at h
  case isTrue hemp =>
    rw [List.isEmpty_iff] at hemp
    rw [hemp] at hBf
    simp at hBf
  case isFalse hemp =>
    have hx := List.any_eq_false.mp h B hBf
    simpa using hx

/-! ## C1 -/

/-- C1 counterexample: the Monday 09:00–09:30 candidate of the C1 group
event type (30 minutes, 10-minute buffers) and a confirmed same-type
booking at exactly 09:00–09:30 with spare capacity satisfy every
condition of the claim's exception — same event type, group, same start
and end instants as the candidate slot, `1 + 1 ≤ 3` — yet
`is_slot_conflicting_with_bookings`, which receives the candidate already
widened to its buffered bounds 08:50–09:40 and compares the booking's
instants against those, reports a conflict: the overlap is treated as a
hard conflict and the candidate is suppressed, contradicting the claim's
"in that case the overlap is not a conflict and the slot may be
returned". -/
theorem C1_counterexample :
    (c1_booking_exact.event_type.id = c1_event_type.id ∧
     c1_event_type.is_group_event = true ∧
     c1_booking_exact.start_time = 378000 ∧ c1_booking_exact.end_time = 379800 ∧
     c1_booking_exact.confirmed_attendees + 1 ≤ c1_event_type.max_attendees) ∧
    is_slot_conflicting_with_bookings
      ((378000 : Int) - (c1_event_type.buffer_time_before : Int) * 60)
      ((379800 : Int) + (c1_event_type.buffer_time_after : Int) * 60)
      [c1_booking_exact] c1_event_type 1 = true := by
  refine ⟨⟨rfl, rfl, rfl, rfl, by decide⟩, by decide⟩

/-- C1 (amended): (1) whenever the booking-conflict filter admits a
candidate — the generator calls it with the candidate interval already
widened to `(start − buffer_before, end + buffer_after)` — every existing
booking either does not overlap that widened interval further widened by
the booking's own event type's buffers, or is the same group event type
sitting exactly at the *widened* bounds with room for the requested
attendees (with zero buffers this coincides with the claim's
exact-start/end exception); (2) the slot generator can only succeed with
the empty list, its emission block raising `NameError` on the first
admitted candidate; (3) hence every successful availability computation
returns no slots at all, and the claim's quantification over returned
slots is vacuous. -/
theorem C1_buffer_respect :
    (∀ (s e : Int) (bookings : List Booking) (event_type : EventType) (k : Nat),
       is_slot_conflicting_with_bookings s e bookings event_type k = false →
       ∀ B ∈ bookings,
         (B.end_time + (B.event_type.buffer_time_after : Int) * 60 ≤ s ∨
           e ≤ B.start_time - (B.event_type.buffer_time_before : Int) * 60) ∨
         (B.event_type.id = event_type.id ∧ event_type.is_group_event = true ∧
           B.start_time = s ∧ B.end_time = e ∧
           B.confirmed_attendees + k ≤ event_type.max_attendees)) ∧
    (∀ (date st en : Int) (event_type : EventType) (org_tz invitee_tz : Tz)
       (blocked_times : List BlockedTime) (recurring_blocks : List RecurringBlockedTime)
       (existing_bookings : List Booking) (external_busy_times : List BusyPeriod)
       (buffer_settings : BufferTime) (attendee_count : Nat) (all_bookings : List Booking)
       (now : Int) (l : List Slot),
       generate_slots_for_time_range date st en event_type org_tz invitee_tz blocked_times
         recurring_blocks existing_bookings external_busy_times buffer_settings
         attendee_count all_bookings now = .ok l → l = []) ∧
    (∀ (db : Db) (organizer : Organizer) (event_type : EventType) (start_date end_date : Int)
       (invitee_timezone : String) (attendee_count : Nat)
       (invitee_timezones : Option (List String)) (now : Int) (r : AvailabilityResult),
       calculate_available_slots db organizer event_type start_date end_date
         invitee_timezone attendee_count invitee_timezones now = .ok r →
       r.slots = []) := by
  refine ⟨?_, ?_, ?_⟩
  · intro s e bookings event_type k hconf B hB
    by_cases hov : bookingOverlaps s e B = true
    · have hexc := not_conflicting_booking hconf B hB hov
      simp only [bookingGroupException, Bool.and_eq_true, decide_eq_true_eq] at hexc
      exact Or.inr ⟨hexc.1.1.1.1, hexc.1.1.1.2, hexc.1.1.2, hexc.1.2, hexc.2⟩
    · left
      simp only [bookingOverlaps, Bool.and_eq_true, decide_eq_true_eq, not_and, not_lt,
        gt_iff_lt] at hov
      omega
  · intro date st en event_type org_tz invitee_tz bt rb eb ebt bs k ab now l h
    exact generate_slots_for_time_range_ok_nil h
  · intro db organizer event_type sd ed tz k tzs now r h
    exact calculate_available_slots_ok_empty h

/-- Witness for `C1_buffer_respect` at concrete inputs: the filter admits
the candidate whose buffered bounds carry a same-type group booking
(exception side of the disjunction); a too-short window succeeds with the
empty list; and the fully-blocked Monday pipeline run returns zero
slots. -/
theorem C1_buffer_respect_witness :
    (is_slot_conflicting_with_bookings 377400 380400 [c1_booking] c1_event_type 1 = false ∧
     c1_booking ∈ [c1_booking] ∧
     ((c1_booking.end_time + (c1_booking.event_type.buffer_time_after : Int) * 60 ≤ 377400 ∨
       (380400 : Int) ≤ c1_booking.start_time -
         (c1_booking.event_type.buffer_time_before : Int) * 60) ∨
      (c1_booking.event_type.id = c1_event_type.id ∧ c1_event_type.is_group_event = true ∧
       c1_booking.start_time = 377400 ∧ c1_booking.end_time = 380400 ∧
       c1_booking.confirmed_attendees + 1 ≤ c1_event_type.max_attendees))) ∧
    (generate_slots_for_time_range 4 32400 33000 c1_event_type utcTz utcTz [] []
        [c1_booking] [] scenario1_buffer 1 [c1_booking] 0 = .ok [] ∧
     ([] : List Slot) = []) ∧
    (calculate_available_slots c3_db scenario1_organizer scenario1_event_type 4 4 "UTC" 1
        none 0 = .ok empty_result ∧ empty_result.slots = []) := by
  have hfilter : is_slot_conflicting_with_bookings 377400 380400 [c1_booking]
      c1_event_type 1 = false := by decide
  have hb : c1_booking ∈ [c1_booking] := List.mem_singleton.mpr rfl
  have hgen : generate_slots_for_time_range 4 32400 33000 c1_event_type utcTz utcTz [] []
      [c1_booking] [] scenario1_buffer 1 [c1_booking] 0 = .ok [] := rfl
  have hrun : calculate_available_slots c3_db scenario1_organizer scenario1_event_type
      4 4 "UTC" 1 none 0 = .ok empty_result := rfl
  exact ⟨⟨hfilter, hb,
      C1_buffer_respect.1 377400 380400 [c1_booking] c1_event_type 1 hfilter c1_booking hb⟩,
    ⟨hgen, C1_buffer_respect.2.1 4 32400 33000 c1_event_type utcTz utcTz [] [] [c1_booking]
      [] scenario1_buffer 1 [c1_booking] 0 [] hgen⟩,
    ⟨hrun, C1_buffer_respect.2.2 c3_db scenario1_organizer scenario1_event_type 4 4 "UTC" 1
      none 0 empty_result hrun⟩⟩

/-! ## C2 -/

/-- C2 counterexample: in scenario example 1 the availability computation
does not yield 16 slots — it does not yield any result at all: the first
candidate, Monday 09:00 UTC, passes every check and reaches the emission
block of `_generate_slots_for_time_range`, which reads the undefined name
`invitee_timezone` and raises `NameError`; the exception propagates out of
`calculate_available_slots`. -/
theorem C2_counterexample :
    calculate_available_slots scenario1_db scenario1_organizer scenario1_event_type
        4 4 "UTC" 1 none 0 = .error nameErrorInviteeTimezone ∧
    ¬ ∃ r, calculate_available_slots scenario1_db scenario1_organizer scenario1_event_type
        4 4 "UTC" 1 none 0 = .ok r ∧ r.slots.length = 16 := by
  have h1 : calculate_available_slots scenario1_db scenario1_organizer scenario1_event_type
      4 4 "UTC" 1 none 0 = .error nameErrorInviteeTimezone := rfl
  refine ⟨h1, ?_⟩
  rintro ⟨r, hr, -⟩
  rw [h1] at hr
  exact Except.noConfusion hr

/-- C2 (amended): requesting scenario example 1's Monday raises
`NameError: name invitee_timezone is not defined` from the emission block
of `_generate_slots_for_time_range` at the first admissible candidate
(Monday 09:00 UTC), both at the per-rule generation level and for the
whole `calculate_available_slots` call; no slot list — of 16 slots or any
other length — is ever produced. -/
theorem C2_scenario1 :
    generate_slots_for_rule utcOnlyTzdb scenario1_rule 4 scenario1_event_type "UTC" "UTC"
        [] [] [] [] scenario1_buffer 1 [] 0 = .error nameErrorInviteeTimezone ∧
    calculate_available_slots scenario1_db scenario1_organizer scenario1_event_type
        4 4 "UTC" 1 none 0 = .error nameErrorInviteeTimezone :=
  ⟨rfl, rfl⟩

/-! ## Lemmas about the merge passes -/

/-- Invariant of the tolerant merge walk over a start-sorted list: the
output begins at the current slot's start and consecutive outputs are
separated by more than the 5-minute tolerance, with non-decreasing
starts. -/
theorem mergeLoopTol_invariant :
    ∀ (l : List Slot) (cur : Slot), List.Sorted slotLE (cur :: l) →
      ∃ hd tl, mergeLoopTol cur l = hd :: tl ∧ hd.start_time = cur.start_time ∧
        List.Chain' slotsSeparatedTol (hd :: tl) := by
  intro l
  induction l with
  | nil =>
    intro cur _
    exact ⟨cur, [], rfl, rfl, List.chain'_singleton _⟩
  | cons next rest ih =>
    intro cur hsort
    rcases List.sorted_cons.mp hsort with ⟨hcur, htail⟩
    simp only [mergeLoopTol]
    by_cases hm : (decide (cur.end_time ≥ next.start_time) ||
        decide (cur.end_time + 300 ≥ next.start_time)) = true
    · rw [if_pos hm]
      have hsort' : List.Sorted slotLE (mergeTwoSlots cur next :: rest) := by
        refine List.sorted_cons.mpr ⟨?_, htail.of_cons⟩
        intro b hb
        exact hcur b (List.mem_cons_of_mem _ hb)
      obtain ⟨hd, tl, heq, hstart, hchain⟩ := ih (mergeTwoSlots cur next) hsort'
      exact ⟨hd, tl, heq, hstart, hchain⟩
    · rw [if_neg hm]
      obtain ⟨hd, tl, heq, hstart, hchain⟩ := ih next htail
      refine ⟨cur, mergeLoopTol next rest, rfl, rfl, ?_⟩
      rw [heq]
      refine List.chain'_cons.mpr ⟨?_, heq ▸ hchain⟩
      simp only [Bool.or_eq_true, decide_eq_true_eq, ge_iff_le, not_or, not_le] at hm
      have h1 : cur.start_time ≤ next.start_time := hcur next (List.mem_cons_self _ _)
      constructor
      · rw [hstart]; omega
      · rw [hstart]; omega

/-- The tolerant merge output is a strictly separated chain. -/
theorem merge_overlapping_slots_chain (slots : List Slot) :
    List.Chain' slotsSeparatedTol (merge_overlapping_slots slots) := by
  unfold merge_overlapping_slots
  cases hs : List.insertionSort slotLE slots with
  | nil => exact List.chain'_nil
  | cons first rest =>
    have hsorted : List.Sorted slotLE (first :: rest) := by
      rw [← hs]; exact List.sorted_insertionSort slotLE slots
    obtain ⟨hd, tl, heq, _, hchain⟩ := mergeLoopTol_invariant rest first hsorted
    show List.Chain' slotsSeparatedTol (mergeLoopTol first rest)
    rw [heq]
    exact hchain

/-- On an already strictly separated chain the tolerant walk changes
nothing. -/
theorem mergeLoopTol_of_chain :
    ∀ (l : List Slot) (cur : Slot), List.Chain' slotsSeparatedTol (cur :: l) →
      mergeLoopTol cur l = cur :: l := by
  intro l
  induction l with
  | nil => intro cur _; rfl
  | cons next rest ih =>
    intro cur hchain
    rcases List.chain'_cons.mp hchain with ⟨hrel, hrest⟩
    have hm : ¬ ((decide (cur.end_time ≥ next.start_time) ||
        decide (cur.end_time + 300 ≥ next.start_time)) = true) := by
      simp only [Bool.or_eq_true, decide_eq_true_eq, ge_iff_le, not_or, not_le]
      obtain ⟨hgap, _⟩ := hrel
      exact ⟨by omega, by omega⟩
    simp only [mergeLoopTol]
    rw [if_neg hm, ih next hrest]

/-- Chains of separated slots are start-sorted. -/
theorem sorted_of_chain_sepTol {l : List Slot}
    (h : List.Chain' slotsSeparatedTol l) : List.Sorted slotLE l :=
  (List.chain'_iff_pairwise.mp h).imp fun hab => hab.2

/-- The tolerant merge fixes every strictly separated chain. -/
theorem merge_overlapping_slots_idem_on :
    ∀ (l : List Slot), List.Chain' slotsSeparatedTol l → merge_overlapping_slots l = l
  | [], _ => rfl
  | a :: t, hch => by
    unfold merge_overlapping_slots
    rw [List.Sorted.insertionSort_eq (sorted_of_chain_sepTol hch)]
    exact mergeLoopTol_of_chain t a hch

/-- Invariant of the exact-adjacency merge walk of the class-based
engine, mirroring `mergeLoopTol_invariant`. -/
theorem mergeLoopExact_invariant :
    ∀ (l : List Slot) (cur : Slot), List.Sorted slotLE (cur :: l) →
      ∃ hd tl, mergeLoopExact cur l = hd :: tl ∧ hd.start_time = cur.start_time ∧
        List.Chain' slotsSeparatedExact (hd :: tl) := by
  intro l
  induction l with
  | nil =>
    intro cur _
    exact ⟨cur, [], rfl, rfl, List.chain'_singleton _⟩
  | cons next rest ih =>
    intro cur hsort
    rcases List.sorted_cons.mp hsort with ⟨hcur, htail⟩
    simp only [mergeLoopExact]
    by_cases hm : (decide (cur.end_time ≥ next.start_time)) = true
    · rw [if_pos hm]
      have hsort' : List.Sorted slotLE (mergeTwoSlotsExact cur next :: rest) := by
        refine List.sorted_cons.mpr ⟨?_, htail.of_cons⟩
        intro b hb
        exact hcur b (List.mem_cons_of_mem _ hb)
      obtain ⟨hd, tl, heq, hstart, hchain⟩ := ih (mergeTwoSlotsExact cur next) hsort'
      exact ⟨hd, tl, heq, hstart, hchain⟩
    · rw [if_neg hm]
      obtain ⟨hd, tl, heq, hstart, hchain⟩ := ih next htail
      refine ⟨cur, mergeLoopExact next rest, rfl, rfl, ?_⟩
      rw [heq]
      refine List.chain'_cons.mpr ⟨?_, heq ▸ hchain⟩
      simp only [decide_eq_true_eq, ge_iff_le, not_le] at hm
      have h1 : cur.start_time ≤ next.start_time := hcur next (List.mem_cons_self _ _)
      exact ⟨by rw [hstart]; omega, by rw [hstart]; omega⟩

/-- The exact merge output is a strictly separated chain. -/
theorem merge_and_deduplicate_slots_chain (slots : List Slot) :
    List.Chain' slotsSeparatedExact (merge_and_deduplicate_slots slots) := by
  unfold merge_and_deduplicate_slots
  cases hs : List.insertionSort slotLE slots with
  | nil => exact List.chain'_nil
  | cons first rest =>
    have hsorted : List.Sorted slotLE (first :: rest) := by
      rw [← hs]; exact List.sorted_insertionSort slotLE slots
    obtain ⟨hd, tl, heq, _, hchain⟩ := mergeLoopExact_invariant rest first hsorted
    show List.Chain' slotsSeparatedExact (mergeLoopExact first rest)
    rw [heq]
    exact hchain

/-- On a strictly separated chain the exact walk changes nothing. -/
theorem mergeLoopExact_of_chain :
    ∀ (l : List Slot) (cur : Slot), List.Chain' slotsSeparatedExact (cur :: l) →
      mergeLoopExact cur l = cur :: l := by
  intro l
  induction l with
  | nil => intro cur _; rfl
  | cons next rest ih =>
    intro cur hchain
    rcases List.chain'_cons.mp hchain with ⟨hrel, hrest⟩
    have hm : ¬ ((decide (cur.end_time ≥ next.start_time)) = true) := by
      simp only [decide_eq_true_eq, ge_iff_le, not_le]
      exact hrel.1
    simp only [mergeLoopExact]
    rw [if_neg hm, ih next hrest]

theorem sorted_of_chain_sepExact {l : List Slot}
    (h : List.Chain' slotsSeparatedExact l) : List.Sorted slotLE l :=
  (List.chain'_iff_pairwise.mp h).imp fun hab => hab.2

/-- The exact merge fixes every strictly separated chain. -/
theorem merge_and_deduplicate_slots_idem_on :
    ∀ (l : List Slot), List.Chain' slotsSeparatedExact l →
      merge_and_deduplicate_slots l = l
  | [], _ => rfl
  | a :: t, hch => by
    unfold merge_and_deduplicate_slots
    rw [List.Sorted.insertionSort_eq (sorted_of_chain_sepExact hch)]
    exact mergeLoopExact_of_chain t a hch

/-! ## C4 -/

/-- C4: both slot-merge implementations (`merge_overlapping_slots` of the
functional engine and `_merge_and_deduplicate_slots` of the class-based
engine) are idempotent: re-merging a merged list changes nothing. -/
theorem C4_merge_idempotent (slots : List Slot) :
    merge_overlapping_slots (merge_overlapping_slots slots) =
      merge_overlapping_slots slots ∧
    merge_and_deduplicate_slots (merge_and_deduplicate_slots slots) =
      merge_and_deduplicate_slots slots :=
  ⟨merge_overlapping_slots_idem_on _ (merge_overlapping_slots_chain slots),
   merge_and_deduplicate_slots_idem_on _ (merge_and_deduplicate_slots_chain slots)⟩

/-! ## C3 -/

theorem slotsSeparatedTol_disjoint {a b : Slot} (h : slotsSeparatedTol a b) :
    slotsDisjoint a b :=
  Or.inl (by obtain ⟨h1, _⟩ := h; omega)

theorem slotsDisjoint_symm {a b : Slot} (h : slotsDisjoint a b) : slotsDisjoint b a :=
  h.symm

/-- The merged list is pairwise non-overlapping. -/
theorem merge_pairwise_disjoint (slots : List Slot) :
    (merge_overlapping_slots slots).Pairwise slotsDisjoint :=
  (List.chain'_iff_pairwise.mp (merge_overlapping_slots_chain slots)).imp
    slotsSeparatedTol_disjoint

/-- A `filterMap` whose function preserves start/end instants preserves
pairwise disjointness. -/
theorem pairwise_disjoint_filterMap {f : Slot → Option Slot}
    (hf : ∀ s s', f s = some s' → s'.start_time = s.start_time ∧ s'.end_time = s.end_time)
    {l : List Slot} (h : l.Pairwise slotsDisjoint) :
    (l.filterMap f).Pairwise slotsDisjoint := by
  rw [List.pairwise_filterMap]
  refine h.imp ?_
  intro a b hab
  intro x hx y hy
  obtain ⟨hxs, hxe⟩ := hf _ _ hx
  obtain ⟨hys, hye⟩ := hf _ _ hy
  unfold slotsDisjoint at hab ⊢
  omega

/-- The DST pass preserves pairwise disjointness. -/
theorem dst_pairwise_disjoint {tzdb : String → Option Tz} {oname iname : String}
    {l : List Slot} (h : l.Pairwise slotsDisjoint) :
    (calculate_dst_safe_time_slots tzdb oname iname l).Pairwise slotsDisjoint := by
  unfold calculate_dst_safe_time_slots
  rcases tzdb oname with _ | o
  · exact h
  · rcases tzdb iname with _ | i
    · exact h
    · refine pairwise_disjoint_filterMap ?_ h
      intro s s' hmap
      simp only at hmap
      split at hmap
      · cases hmap
      · cases hmap; exact ⟨rfl, rfl⟩

/-- The multi-invitee reconciler preserves pairwise disjointness. -/
theorem multi_pairwise_disjoint {tzdb : String → Option Tz} {slots : List Slot}
    {tzs : List String} {primary : String} {org : Option Organizer}
    (h : slots.Pairwise slotsDisjoint) :
    (calculate_multi_invitee_intersection tzdb slots tzs primary org).Pairwise
      slotsDisjoint := by
  unfold calculate_multi_invitee_intersection
  split
  · exact h
  · refine (List.Perm.pairwise_iff (fun hab => slotsDisjoint_symm hab)
      (List.perm_insertionSort _ _)).mpr ?_
    refine pairwise_disjoint_filterMap ?_ h
    intro s s' hmap
    rcases Option.map_eq_some'.mp hmap with ⟨its, _, rfl⟩
    exact ⟨rfl, rfl⟩

/-- All post-generation passes together keep the output pairwise
non-overlapping. -/
theorem postprocess_pairwise_disjoint {tzdb : String → Option Tz}
    {oname iname : String} {tzs : List String} {organizer : Organizer}
    {raw : List Slot} :
    (postprocessSlots tzdb oname iname tzs organizer raw).Pairwise slotsDisjoint := by
  unfold postprocessSlots
  have h1 : (merge_overlapping_slots raw).Pairwise slotsDisjoint :=
    merge_pairwise_disjoint raw
  have h2 : (List.insertionSort slotLE (merge_overlapping_slots raw)).Pairwise
      slotsDisjoint :=
    (List.Perm.pairwise_iff (fun hab => slotsDisjoint_symm hab)
      (List.perm_insertionSort _ _)).mpr h1
  have h3 := @dst_pairwise_disjoint tzdb oname iname _ h2
  split
  · exact multi_pairwise_disjoint h3
  · exact h3

/-- C3: in the final merged output of the availability computation no two
distinct slots overlap as UTC intervals. -/
theorem C3_no_overlap {db : Db} {organizer : Organizer} {event_type : EventType}
    {start_date end_date : Int} {invitee_timezone : String} {attendee_count : Nat}
    {invitee_timezones : Option (List String)} {now : Int} {r : AvailabilityResult}
    (h : calculate_available_slots db organizer event_type start_date end_date
      invitee_timezone attendee_count invitee_timezones now = .ok r) :
    ∀ (i j : Nat) (hi : i < r.slots.length) (hj : j < r.slots.length), i < j →
      ¬ (r.slots[i].start_time < r.slots[j].end_time ∧
         r.slots[j].start_time < r.slots[i].end_time) := by
  obtain ⟨-, raw, -, hslots⟩ := calculate_available_slots_ok h
  have hp : r.slots.Pairwise slotsDisjoint := by
    rw [hslots]; exact postprocess_pairwise_disjoint
  intro i j hi hj hij hcontra
  have hd := (List.pairwise_iff_getElem.mp hp) i j hi hj hij
  unfold slotsDisjoint at hd
  omega

/-- Witness for `C3_no_overlap` at a concrete successful run: with all of
Monday blocked the pipeline returns (the only successful outcome it has,
given the generator's emission `NameError`) an empty slot list, and the
theorem applies to that run. -/
theorem C3_no_overlap_witness :
    calculate_available_slots c3_db scenario1_organizer scenario1_event_type
        4 4 "UTC" 1 none 0 = .ok empty_result ∧
    ∀ (i j : Nat) (hi : i < empty_result.slots.length)
      (hj : j < empty_result.slots.length), i < j →
      ¬ (empty_result.slots[i].start_time < empty_result.slots[j].end_time ∧
         empty_result.slots[j].start_time < empty_result.slots[i].end_time) := by
  have h : calculate_available_slots c3_db scenario1_organizer scenario1_event_type
      4 4 "UTC" 1 none 0 = .ok empty_result := rfl
  exact ⟨h, C3_no_overlap h⟩

/-! ## C5 -/

/-- Every slot the reconciler returns carries the start/end instants of
one of its input slots. -/
theorem mem_multi_invitee {tzdb : String → Option Tz} {slots : List Slot}
    {tzs : List String} {primary : String} {org : Option Organizer} :
    ∀ s' ∈ calculate_multi_invitee_intersection tzdb slots tzs primary org,
      ∃ s ∈ slots, s'.start_time = s.start_time ∧ s'.end_time = s.end_time := by
  intro s' hs'
  unfold calculate_multi_invitee_intersection at hs'
  split at hs'
  · exact ⟨s', hs', rfl, rfl⟩
  · have hmem := (List.perm_insertionSort slotFairnessGE _).mem_iff.mp hs'
    rcases List.mem_filterMap.mp hmem with ⟨s, hsmem, hmap⟩
    rcases Option.map_eq_some'.mp hmap with ⟨its, _, rfl⟩
    exact ⟨s, hsmem, rfl, rfl⟩

/-- Membership characterisation of the DST-safety pass when both timezone
lookups succeed. -/
theorem mem_calculate_dst_safe {tzdb : String → Option Tz} {oname iname : String}
    {o_tz i_tz : Tz} {base : List Slot}
    (ho : tzdb oname = some o_tz) (hi : tzdb iname = some i_tz) {s : Slot} :
    s ∈ calculate_dst_safe_time_slots tzdb oname iname base ↔
      ∃ s0 ∈ base, o_tz.dst s0.start_time = o_tz.dst s0.end_time ∧
        s = { s0 with
          local_start_time := some s0.start_time
          local_end_time := some s0.end_time
          dst_info := some (dstTruthy (o_tz.dst s0.start_time),
            dstTruthy (i_tz.dst s0.start_time),
            decide (o_tz.dst s0.start_time ≠ o_tz.dst s0.end_time)) } := by
  unfold calculate_dst_safe_time_slots
  rw [ho, hi]
  rw [List.mem_filterMap]
  constructor
  · rintro ⟨s0, hmem, hmap⟩
    simp only at hmap
    by_cases hc : o_tz.dst s0.start_time ≠ o_tz.dst s0.end_time
    · rw [if_pos hc] at hmap; cases hmap
    · rw [if_neg hc] at hmap
      cases hmap
      exact ⟨s0, hmem, not_ne_iff.mp hc, rfl⟩
  · rintro ⟨s0, hmem, hdst, rfl⟩
    refine ⟨s0, hmem, ?_⟩
    simp only
    rw [if_neg (not_ne_iff.mpr hdst)]

/-- Every slot surviving the whole post-processing has equal `dst()`
components at its endpoints in the organizer's timezone. -/
theorem postprocess_dst_eq {tzdb : String → Option Tz} {oname iname : String}
    {tzs : List String} {organizer : Organizer} {raw : List Slot} {o_tz i_tz : Tz}
    (ho : tzdb oname = some o_tz) (hi : tzdb iname = some i_tz) :
    ∀ s ∈ postprocessSlots tzdb oname iname tzs organizer raw,
      o_tz.dst s.start_time = o_tz.dst s.end_time := by
  have hdst : ∀ t ∈ calculate_dst_safe_time_slots tzdb oname iname
      (List.insertionSort slotLE (merge_overlapping_slots raw)),
      o_tz.dst t.start_time = o_tz.dst t.end_time := by
    intro t ht
    rcases (mem_calculate_dst_safe ho hi).mp ht with ⟨s0, _, hdst0, rfl⟩
    simpa using hdst0
  intro s hs
  unfold postprocessSlots at hs
  split at hs
  · rcases mem_multi_invitee s hs with ⟨t, ht, hstart, hend⟩
    rw [hstart, hend]
    exact hdst t ht
  · exact hdst s hs

/-- C5: no slot returned by a successful availability computation spans a
`dst()` change in the organizer's timezone, and the DST-safety pass keeps
exactly the DST-uniform candidate slots with their start/end instants
unchanged, dropping the rest. -/
theorem C5_dst_exclusion :
    (∀ (db : Db) (organizer : Organizer) (event_type : EventType)
       (start_date end_date : Int) (invitee_timezone : String) (attendee_count : Nat)
       (invitee_timezones : Option (List String)) (now : Int) (r : AvailabilityResult)
       (org_tz : Tz),
       calculate_available_slots db organizer event_type start_date end_date
         invitee_timezone attendee_count invitee_timezones now = .ok r →
       db.tzdb organizer.profile.timezone_name = some org_tz →
       ∀ s ∈ r.slots, org_tz.dst s.start_time = org_tz.dst s.end_time) ∧
    (∀ (tzdb : String → Option Tz) (oname iname : String) (o_tz i_tz : Tz)
       (base : List Slot), tzdb oname = some o_tz → tzdb iname = some i_tz →
       (∀ s ∈ calculate_dst_safe_time_slots tzdb oname iname base,
          o_tz.dst s.start_time = o_tz.dst s.end_time ∧
          ∃ s0 ∈ base, s.start_time = s0.start_time ∧ s.end_time = s0.end_time) ∧
       (∀ s0 ∈ base, o_tz.dst s0.start_time = o_tz.dst s0.end_time →
          ∃ s ∈ calculate_dst_safe_time_slots tzdb oname iname base,
            s.start_time = s0.start_time ∧ s.end_time = s0.end_time)) := by
  constructor
  · intro db organizer event_type sd ed tz k tzs now r org_tz hok horg
    obtain ⟨hval, raw, -, hslots⟩ := calculate_available_slots_ok hok
    rcases Option.isSome_iff_exists.mp (by simpa [validate_timezone] using hval)
      with ⟨i_tz, hi⟩
    rw [hslots]
    exact postprocess_dst_eq horg hi
  · intro tzdb oname iname o_tz i_tz base ho hi
    constructor
    · intro s hs
      rcases (mem_calculate_dst_safe ho hi).mp hs with ⟨s0, hmem, hdst0, rfl⟩
      exact ⟨by simpa using hdst0, s0, hmem, rfl, rfl⟩
    · intro s0 hmem hdst0
      exact ⟨_, (mem_calculate_dst_safe ho hi).mpr ⟨s0, hmem, hdst0, rfl⟩, rfl, rfl⟩

/-- Witness for `C5_dst_exclusion`: a timezone whose `dst()` flips at
instant 1000 drops exactly the candidate crossing it, and the pipeline
half applies to the fully-blocked Monday run (the only kind of successful
run the program has, given the generator's emission `NameError`). -/
theorem C5_dst_exclusion_witness :
    c5_tzdb "Org/Shifty" = some dstShiftTz ∧ c5_tzdb "UTC" = some utcTz ∧
    calculate_dst_safe_time_slots c5_tzdb "Org/Shifty" "UTC"
        [c5_slot_before, c5_slot_crossing, c5_slot_after] =
      [c5_kept_before, c5_kept_after] ∧
    (∀ s ∈ calculate_dst_safe_time_slots c5_tzdb "Org/Shifty" "UTC"
        [c5_slot_before, c5_slot_crossing, c5_slot_after],
       dstShiftTz.dst s.start_time = dstShiftTz.dst s.end_time ∧
       ∃ s0 ∈ [c5_slot_before, c5_slot_crossing, c5_slot_after],
         s.start_time = s0.start_time ∧ s.end_time = s0.end_time) ∧
    (∀ s ∈ empty_result.slots, utcTz.dst s.start_time = utcTz.dst s.end_time) := by
  refine ⟨rfl, rfl, rfl, ?_, ?_⟩
  · exact (C5_dst_exclusion.2 c5_tzdb "Org/Shifty" "UTC" dstShiftTz utcTz
      [c5_slot_before, c5_slot_crossing, c5_slot_after] rfl rfl).1
  · exact C5_dst_exclusion.1 c3_db scenario1_organizer scenario1_event_type
      4 4 "UTC" 1 none 0 empty_result utcTz rfl rfl

/-! ## C6 -/

/-- C6: `create_booking_with_validation` re-runs the conflict filter
(`_is_slot_available`) first; whenever the requested slot is no longer
available it returns no booking, the "Selected time slot is no longer
available" error, and the booking store is unchanged. -/
theorem C6_create_rechecks {db : Db} {event_type : EventType} {organizer : Organizer}
    {booking_data : BookingData} {custom_answers : List (Nat × String)}
    {vca : EventType → List (Nat × String) → List String} {now : Int} {org_tz : Tz}
    (horg : db.tzdb organizer.profile.timezone_name = some org_tz)
    (hunavail : is_slot_available db event_type org_tz booking_data.start_time
      (booking_data.start_time + (event_type.duration : Int) * 60)
      booking_data.attendee_count ((event_type.buffer_time_before : Int) * 60)
      ((event_type.buffer_time_after : Int) * 60) now = false) :
    create_booking_with_validation db event_type organizer booking_data custom_answers
      vca now =
      { booking := none, created := false
        errors := ["Selected time slot is no longer available"]
        bookings_after := db.bookings } := by
  unfold create_booking_with_validation
  rw [horg]
  simp [hunavail]

/-- Witness for `C6_create_rechecks`: with a 60-minute notice and `now`
far beyond the requested start, the re-check fails and creation is
refused without touching the store. -/
theorem C6_create_rechecks_witness :
    c6_db.tzdb scenario1_organizer.profile.timezone_name = some utcTz ∧
    is_slot_available c6_db c6_event_type utcTz c6_booking_data.start_time
      (c6_booking_data.start_time + (c6_event_type.duration : Int) * 60)
      c6_booking_data.attendee_count ((c6_event_type.buffer_time_before : Int) * 60)
      ((c6_event_type.buffer_time_after : Int) * 60) 1000000 = false ∧
    create_booking_with_validation c6_db c6_event_type scenario1_organizer
      c6_booking_data [] (fun _ _ => []) 1000000 =
      { booking := none, created := false
        errors := ["Selected time slot is no longer available"]
        bookings_after := c6_db.bookings } := by
  refine ⟨rfl, ?_, ?_⟩
  · decide
  · exact C6_create_rechecks rfl (by decide)

/-! ## C7 -/

/-- C7 counterexample: a request with `end_date < start_date` (and a
valid timezone) is not rejected — it returns a normal, empty result. -/
theorem C7_counterexample :
    calculate_available_slots scenario1_db scenario1_organizer scenario1_event_type
        5 4 "UTC" 1 none 0 =
      .ok { slots := [], warnings := [], cache_hit := false, total_slots := 0 } ∧
    ¬ ∃ msg, calculate_available_slots scenario1_db scenario1_organizer
        scenario1_event_type 5 4 "UTC" 1 none 0 = .error msg := by
  have h : calculate_available_slots scenario1_db scenario1_organizer scenario1_event_type
      5 4 "UTC" 1 none 0 =
      .ok { slots := [], warnings := [], cache_hit := false, total_slots := 0 } := rfl
  refine ⟨h, ?_⟩
  rintro ⟨msg, hmsg⟩
  rw [h] at hmsg
  cases hmsg

/-- C7 (amended): an invalid primary invitee timezone is rejected
immediately with a descriptive error, but `end_date < start_date` is not
rejected: the computation returns normally with zero slots. -/
theorem C7_input_validation :
    (∀ (db : Db) (organizer : Organizer) (event_type : EventType) (sd ed : Int)
       (tz : String) (k : Nat) (tzs : Option (List String)) (now : Int),
       db.tzdb tz = none →
       calculate_available_slots db organizer event_type sd ed tz k tzs now =
         .error ("Invalid timezone: " ++ tz)) ∧
    (∀ (db : Db) (organizer : Organizer) (event_type : EventType) (sd ed : Int)
       (tz : String) (k : Nat) (tzs : Option (List String)) (now : Int),
       (db.tzdb tz).isSome → ed < sd →
       ∃ r, calculate_available_slots db organizer event_type sd ed tz k tzs now =
         .ok r ∧ r.slots = [] ∧ r.total_slots = 0) := by
  constructor
  · intro db organizer event_type sd ed tz k tzs now hnone
    unfold calculate_available_slots
    rw [if_pos]
    simp [validate_timezone, hnone]
  · intro db organizer event_type sd ed tz k tzs now hsome hlt
    have hval : ¬ ¬ (validate_timezone db.tzdb tz = true) := by
      simp [validate_timezone, hsome]
    have hfuel : (ed - sd + 1).toNat = 0 := by omega
    have hres : calculate_available_slots db organizer event_type sd ed tz k tzs now =
        .ok { slots := postprocessSlots db.tzdb organizer.profile.timezone_name tz
                (processInviteeTimezones db.tzdb tzs).1 organizer []
              warnings := (processInviteeTimezones db.tzdb tzs).2
              cache_hit := false
              total_slots := (postprocessSlots db.tzdb organizer.profile.timezone_name tz
                (processInviteeTimezones db.tzdb tzs).1 organizer []).length } := by
      unfold calculate_available_slots
      rw [if_neg hval, hfuel]
      rfl
    rw [postprocess_nil] at hres
    exact ⟨_, hres, rfl, rfl⟩

/-- Witness for `C7_input_validation` at concrete inputs: an unknown
timezone name errors, and a reversed date range returns an empty ok
result. -/
theorem C7_input_validation_witness :
    scenario1_db.tzdb "Not/A/Zone" = none ∧
    calculate_available_slots scenario1_db scenario1_organizer scenario1_event_type
        4 4 "Not/A/Zone" 1 none 0 = .error ("Invalid timezone: " ++ "Not/A/Zone") ∧
    (scenario1_db.tzdb "UTC").isSome ∧ (3 : Int) < 7 ∧
    ∃ r, calculate_available_slots scenario1_db scenario1_organizer scenario1_event_type
        7 3 "UTC" 1 none 0 = .ok r ∧ r.slots = [] ∧ r.total_slots = 0 := by
  refine ⟨rfl, ?_, rfl, by decide, ?_⟩
  · exact C7_input_validation.1 scenario1_db scenario1_organizer scenario1_event_type
      4 4 "Not/A/Zone" 1 none 0 rfl
  · exact C7_input_validation.2 scenario1_db scenario1_organizer scenario1_event_type
      7 3 "UTC" 1 none 0 (by decide) (by decide)

/-! ## C8 -/

/-- The per-slot reasonable-hours walk succeeds exactly when every
invitee timezone resolves and accepts both localized endpoints within the
reasonable hours (start hour bounded below, end hour bounded above, both
inclusive at the boundary) on a single local date. -/
theorem computeInviteeTimes_isSome_iff {tzdb : String → Option Tz}
    {rs re : Int} {s e : Int} :
    ∀ (tzs : List String) (acc : List (String × InviteeTime)),
      (computeInviteeTimes tzdb rs re s e tzs acc).isSome = true ↔
      ∀ tz ∈ tzs, ∃ z, tzdb tz = some z ∧ rs ≤ z.localHour s ∧ z.localHour e ≤ re ∧
        z.localDate s = z.localDate e := by
  intro tzs
  induction tzs with
  | nil => intro acc; simp [computeInviteeTimes]
  | cons tz rest ih =>
    intro acc
    simp only [computeInviteeTimes, get_reasonable_hours_for_timezone]
    cases htz : tzdb tz with
    | none =>
      simp only [Option.isSome_none, Bool.false_eq_true, false_iff, not_forall]
      refine ⟨tz, List.mem_cons_self _ _, ?_⟩
      rintro ⟨z, hz, -⟩
      rw [htz] at hz
      cases hz
    | some z =>
      dsimp only
      by_cases hcond : (decide (z.localHour s < rs) || decide (z.localHour e > re) ||
          decide (z.localDate s ≠ z.localDate e)) = true
      · rw [if_pos hcond]
        simp only [Option.isSome_none, Bool.false_eq_true, false_iff, not_forall]
        refine ⟨tz, List.mem_cons_self _ _, ?_⟩
        rintro ⟨z', hz', h1, h2, h3⟩
        rw [htz] at hz'
        cases hz'
        simp only [Bool.or_eq_true, decide_eq_true_eq, gt_iff_lt, ne_eq] at hcond
        rcases hcond with (h | h) | h
        · omega
        · omega
        · exact h h3
      · rw [if_neg hcond]
        rw [ih]
        simp only [Bool.or_eq_true, decide_eq_true_eq, gt_iff_lt, ne_eq, not_or,
          not_lt] at hcond
        obtain ⟨⟨hc1, hc2⟩, hc3⟩ := hcond
        constructor
        · intro hrest tz' htz'
          rcases List.mem_cons.mp htz' with rfl | hmem
          · exact ⟨z, htz, hc1, hc2, not_not.mp hc3⟩
          · exact hrest tz' hmem
        · intro hall tz' hmem
          exact hall tz' (List.mem_cons_of_mem _ hmem)

/-- C8 (amended): with more than one invitee timezone the reconciler
keeps exactly the slots whose localized endpoints satisfy, for every
invitee timezone, reasonable_start ≤ local start hour, local end hour ≤
reasonable_end (inclusive bounds, not the half-open interval of the
claim), and equal local calendar dates; kept slots keep their start/end
instants, and slots violating any of these for any invitee timezone (or
naming an unknown timezone) are excluded. -/
theorem C8_reasonable_hours {tzdb : String → Option Tz} {slots : List Slot}
    {tzs : List String} {primary : String} {organizer : Option Organizer}
    (hlen : 1 < tzs.length) :
    (∀ s' ∈ calculate_multi_invitee_intersection tzdb slots tzs primary organizer,
       ∃ s ∈ slots, s'.start_time = s.start_time ∧ s'.end_time = s.end_time ∧
         ∀ tz ∈ tzs, ∃ z, tzdb tz = some z ∧
           (reasonableHoursFor organizer).1 ≤ z.localHour s.start_time ∧
           z.localHour s.end_time ≤ (reasonableHoursFor organizer).2 ∧
           z.localDate s.start_time = z.localDate s.end_time) ∧
    (∀ s ∈ slots,
       (∀ tz ∈ tzs, ∃ z, tzdb tz = some z ∧
           (reasonableHoursFor organizer).1 ≤ z.localHour s.start_time ∧
           z.localHour s.end_time ≤ (reasonableHoursFor organizer).2 ∧
           z.localDate s.start_time = z.localDate s.end_time) →
       ∃ s' ∈ calculate_multi_invitee_intersection tzdb slots tzs primary organizer,
         s'.start_time = s.start_time ∧ s'.end_time = s.end_time) := by
  have hif : calculate_multi_invitee_intersection tzdb slots tzs primary organizer =
      List.insertionSort slotFairnessGE (slots.filterMap fun slot =>
        (computeInviteeTimes tzdb (reasonableHoursFor organizer).1
          (reasonableHoursFor organizer).2 slot.start_time slot.end_time tzs []).map
          (attachInviteeTimes slot)) := by
    unfold calculate_multi_invitee_intersection
    rw [if_neg (by omega)]
  constructor
  · intro s' hs'
    rw [hif] at hs'
    have hmem := (List.perm_insertionSort slotFairnessGE _).mem_iff.mp hs'
    rcases List.mem_filterMap.mp hmem with ⟨s, hsmem, hmap⟩
    rcases Option.map_eq_some'.mp hmap with ⟨its, hits, rfl⟩
    refine ⟨s, hsmem, rfl, rfl, ?_⟩
    refine (computeInviteeTimes_isSome_iff tzs []).mp ?_
    rw [hits]
    rfl
  · intro s hsmem hall
    rcases Option.isSome_iff_exists.mp
      ((computeInviteeTimes_isSome_iff tzs []).mpr hall) with ⟨its, hits⟩
    refine ⟨attachInviteeTimes s its, ?_, rfl, rfl⟩
    rw [hif]
    refine (List.perm_insertionSort slotFairnessGE _).mem_iff.mpr ?_
    exact List.mem_filterMap.mpr ⟨s, hsmem, by rw [hits]; rfl⟩

/-- C8 counterexample: a 22:00–22:30 UTC slot has both local hours equal
to 22, outside the claim's half-open `[7, 22)` window, yet the reconciler
keeps it (the source compares the end hour with `>`, an inclusive
bound). -/
theorem C8_counterexample :
    calculate_multi_invitee_intersection utcOnlyTzdb [c8_slot] ["UTC", "Etc/UTC"]
        "UTC" none = [c8_kept] ∧
    utcOnlyTzdb "UTC" = some utcTz ∧
    utcTz.localHour c8_slot.start_time = 22 ∧
    utcTz.localHour c8_slot.end_time = 22 ∧
    ¬ (utcTz.localHour c8_slot.start_time < 22 ∧ utcTz.localHour c8_slot.end_time < 22) ∧
    [c8_kept] ≠ ([] : List Slot) := by
  have h1 : calculate_multi_invitee_intersection utcOnlyTzdb [c8_slot] ["UTC", "Etc/UTC"]
      "UTC" none = [c8_kept] := rfl
  exact ⟨h1, rfl, rfl, rfl, by decide, by decide⟩

/-- Witness for `C8_reasonable_hours` at the C8 fixture. -/
theorem C8_reasonable_hours_witness :
    1 < (["UTC", "Etc/UTC"] : List String).length ∧
    ((∀ s' ∈ calculate_multi_invitee_intersection utcOnlyTzdb [c8_slot]
        ["UTC", "Etc/UTC"] "UTC" none,
       ∃ s ∈ [c8_slot], s'.start_time = s.start_time ∧ s'.end_time = s.end_time ∧
         ∀ tz ∈ ["UTC", "Etc/UTC"], ∃ z, utcOnlyTzdb tz = some z ∧
           (reasonableHoursFor none).1 ≤ z.localHour s.start_time ∧
           z.localHour s.end_time ≤ (reasonableHoursFor none).2 ∧
           z.localDate s.start_time = z.localDate s.end_time) ∧
     (∀ s ∈ [c8_slot],
       (∀ tz ∈ ["UTC", "Etc/UTC"], ∃ z, utcOnlyTzdb tz = some z ∧
           (reasonableHoursFor none).1 ≤ z.localHour s.start_time ∧
           z.localHour s.end_time ≤ (reasonableHoursFor none).2 ∧
           z.localDate s.start_time = z.localDate s.end_time) →
       ∃ s' ∈ calculate_multi_invitee_intersection utcOnlyTzdb [c8_slot]
           ["UTC", "Etc/UTC"] "UTC" none,
         s'.start_time = s.start_time ∧ s'.end_time = s.end_time)) :=
  ⟨by decide, C8_reasonable_hours (by decide)⟩

/-! ## C9 -/

/-- The code's five-tier bucket is exactly the specification's. -/
theorem fairnessTzScore_eq_spec : fairnessTzScore = specBucketScore := rfl

/-- The code's fairness score equals the specification's average-bucket
formula (on the empty dictionary both give 0, since `x / 0 = 0` in ℚ). -/
theorem fairness_eq_spec (its : List (String × InviteeTime)) :
    calculate_slot_fairness_score its = specFairnessScore its := by
  unfold calculate_slot_fairness_score specFairnessScore
  split
  case isTrue h =>
    rw [List.isEmpty_iff.mp h]
    simp
  case isFalse h => rfl

/-- Inserting into a descending-score-sorted prefix passes the new slot
over exactly the strictly higher scores, so each score class keeps its
relative order (stability of `orderedInsert`). -/
theorem filter_score_orderedInsert (c : ℚ) (x : Slot) (l : List Slot) :
    (l.orderedInsert slotFairnessGE x).filter (fun s => decide (slotScore s = c)) =
      if slotScore x = c then x :: l.filter (fun s => decide (slotScore s = c))
      else l.filter (fun s => decide (slotScore s = c)) := by
  rw [List.orderedInsert_eq_take_drop, List.filter_append, List.filter_cons]
  have hsplit : l.filter (fun s => decide (slotScore s = c)) =
      (l.takeWhile fun b => decide ¬ slotFairnessGE x b).filter
        (fun s => decide (slotScore s = c)) ++
      (l.dropWhile fun b => decide ¬ slotFairnessGE x b).filter
        (fun s => decide (slotScore s = c)) := by
    rw [← List.filter_append, List.takeWhile_append_dropWhile]
  by_cases hx : slotScore x = c
  · have htake : (l.takeWhile fun b => decide ¬ slotFairnessGE x b).filter
        (fun s => decide (slotScore s = c)) = [] := by
      rw [List.filter_eq_nil_iff]
      intro a ha
      have hta := List.mem_takeWhile_imp ha
      simp only [decide_eq_true_eq] at hta ⊢
      intro hc
      exact hta (le_of_eq (hc.trans hx.symm))
    rw [if_pos hx, if_pos (show decide (slotScore x = c) = true by simpa using hx),
      hsplit, htake]
    simp
  · rw [if_neg hx, if_neg (show ¬ (decide (slotScore x = c) = true) by simpa using hx),
      hsplit]

/-- Stability of the whole descending fairness sort: every score class is
the same sublist before and after sorting. -/
theorem filter_score_insertionSort (c : ℚ) (l : List Slot) :
    (List.insertionSort slotFairnessGE l).filter (fun s => decide (slotScore s = c)) =
      l.filter (fun s => decide (slotScore s = c)) := by
  induction l with
  | nil => rfl
  | cons x xs ih =>
    show ((List.insertionSort slotFairnessGE xs).orderedInsert slotFairnessGE x).filter _ = _
    rw [filter_score_orderedInsert, List.filter_cons]
    by_cases hx : slotScore x = c
    · rw [if_pos hx, ih, if_pos (by simpa using hx)]
    · rw [if_neg hx, ih, if_neg (by simpa using hx)]

/-- C9: the reconciler output is sorted non-increasing by fairness score;
each survivor's stored score is the specification's five-tier average of
its invitee local start hours; and for time-ascending input, slots of
equal score remain in time-ascending order. -/
theorem C9_fairness_ranking {tzdb : String → Option Tz} {slots : List Slot}
    {tzs : List String} {primary : String} {organizer : Option Organizer}
    (hlen : 1 < tzs.length) (hsorted : slots.Pairwise slotLE) :
    (calculate_multi_invitee_intersection tzdb slots tzs primary organizer).Pairwise
      slotFairnessGE ∧
    (∀ s ∈ calculate_multi_invitee_intersection tzdb slots tzs primary organizer,
       s.fairness_score = some (specFairnessScore s.invitee_times)) ∧
    (∀ c : ℚ,
      ((calculate_multi_invitee_intersection tzdb slots tzs primary organizer).filter
        (fun s => decide (slotScore s = c))).Pairwise slotLE) := by
  have hif : calculate_multi_invitee_intersection tzdb slots tzs primary organizer =
      List.insertionSort slotFairnessGE (slots.filterMap fun slot =>
        (computeInviteeTimes tzdb (reasonableHoursFor organizer).1
          (reasonableHoursFor organizer).2 slot.start_time slot.end_time tzs []).map
          (attachInviteeTimes slot)) := by
    unfold calculate_multi_invitee_intersection
    rw [if_neg (by omega)]
  have hsurv : (slots.filterMap fun slot =>
      (computeInviteeTimes tzdb (reasonableHoursFor organizer).1
        (reasonableHoursFor organizer).2 slot.start_time slot.end_time tzs []).map
        (attachInviteeTimes slot)).Pairwise slotLE := by
    rw [List.pairwise_filterMap]
    refine hsorted.imp ?_
    intro a b hab x hx y hy
    rcases Option.map_eq_some'.mp hx with ⟨its1, _, rfl⟩
    rcases Option.map_eq_some'.mp hy with ⟨its2, _, rfl⟩
    exact hab
  refine ⟨?_, ?_, ?_⟩
  · rw [hif]
    exact List.sorted_insertionSort slotFairnessGE _
  · intro s hs
    rw [hif] at hs
    have hmem := (List.perm_insertionSort slotFairnessGE _).mem_iff.mp hs
    rcases List.mem_filterMap.mp hmem with ⟨s0, _, hmap⟩
    rcases Option.map_eq_some'.mp hmap with ⟨its, _, rfl⟩
    show some (calculate_slot_fairness_score its) = some (specFairnessScore its)
    rw [fairness_eq_spec]
  · intro c
    rw [hif, filter_score_insertionSort]
    exact hsurv.filter _

/-- Witness for `C9_fairness_ranking`: two invitee timezones and a
time-ascending two-slot input discharge the hypotheses. -/
theorem C9_fairness_ranking_witness :
    1 < (["UTC", "Etc/UTC"] : List String).length ∧
    ([c9_slot_midday, c9_slot_late] : List Slot).Pairwise slotLE ∧
    ((calculate_multi_invitee_intersection utcOnlyTzdb [c9_slot_midday, c9_slot_late]
        ["UTC", "Etc/UTC"] "UTC" none).Pairwise slotFairnessGE ∧
     (∀ s ∈ calculate_multi_invitee_intersection utcOnlyTzdb [c9_slot_midday, c9_slot_late]
        ["UTC", "Etc/UTC"] "UTC" none,
        s.fairness_score = some (specFairnessScore s.invitee_times)) ∧
     (∀ c : ℚ,
       ((calculate_multi_invitee_intersection utcOnlyTzdb [c9_slot_midday, c9_slot_late]
          ["UTC", "Etc/UTC"] "UTC" none).filter
          (fun s => decide (slotScore s = c))).Pairwise slotLE)) := by
  refine ⟨by decide, ?_, C9_fairness_ranking (by decide) ?_⟩
  · exact List.Pairwise.cons (by intro b hb; rcases List.mem_singleton.mp hb with rfl; decide)
      (List.pairwise_singleton _ _)
  · exact List.Pairwise.cons (by intro b hb; rcases List.mem_singleton.mp hb with rfl; decide)
      (List.pairwise_singleton _ _)

/-! ## C10 -/

/-- C10 counterexample: a two-attendee request on the non-group
scenario-1 event type does not "still return slots" (with
`available_spots = 0` or otherwise): the first candidate reaches the
emission block, whose read of the undefined name `invitee_timezone`
raises `NameError`, so the generation ends in that error and no slot list
is ever returned. -/
theorem C10_counterexample :
    scenario1_event_type.is_group_event = false ∧
    generate_slots_for_rule utcOnlyTzdb scenario1_rule 4 scenario1_event_type "UTC" "UTC"
        [] [] [] [] scenario1_buffer 2 [] 0 = .error nameErrorInviteeTimezone ∧
    ¬ ∃ l, generate_slots_for_rule utcOnlyTzdb scenario1_rule 4 scenario1_event_type "UTC"
        "UTC" [] [] [] [] scenario1_buffer 2 [] 0 = .ok l ∧ l ≠ [] := by
  have h : generate_slots_for_rule utcOnlyTzdb scenario1_rule 4 scenario1_event_type "UTC"
      "UTC" [] [] [] [] scenario1_buffer 2 [] 0 = .error nameErrorInviteeTimezone := rfl
  refine ⟨rfl, h, ?_⟩
  rintro ⟨l, hl, -⟩
  rw [h] at hl
  exact Except.noConfusion hl

/-- C10 (amended): for a non-group event type the spot computation
returns 1 for a single-attendee request and 0 otherwise, and the
booking-conflict filter — the only admission check that reads the
attendee count — is independent of it, so a multi-attendee request is
neither rejected nor are candidates suppressed on its account; but those
slots are never returned: a successful generation is always empty, and
a two-attendee scenario-1 request ends in the emission `NameError`
exactly as the one-attendee request does. -/
theorem C10_non_group_spots :
    (∀ (event_type : EventType) (s e : Int) (bookings : List Booking) (k : Nat),
       event_type.is_group_event = false →
       get_available_spots_for_slot event_type s e bookings k =
         if k = 1 then 1 else 0) ∧
    (∀ (s e : Int) (bookings : List Booking) (event_type : EventType) (k j : Nat),
       event_type.is_group_event = false →
       is_slot_conflicting_with_bookings s e bookings event_type k =
         is_slot_conflicting_with_bookings s e bookings event_type j) ∧
    (∀ (date st en : Int) (event_type : EventType) (org_tz invitee_tz : Tz)
       (blocked_times : List BlockedTime) (recurring_blocks : List RecurringBlockedTime)
       (existing_bookings : List Booking) (external_busy_times : List BusyPeriod)
       (buffer_settings : BufferTime) (attendee_count : Nat) (all_bookings : List Booking)
       (now : Int) (l : List Slot),
       generate_slots_for_time_range date st en event_type org_tz invitee_tz blocked_times
         recurring_blocks existing_bookings external_busy_times buffer_settings
         attendee_count all_bookings now = .ok l → l = []) ∧
    generate_slots_for_rule utcOnlyTzdb scenario1_rule 4 scenario1_event_type "UTC" "UTC"
        [] [] [] [] scenario1_buffer 2 [] 0 =
      generate_slots_for_rule utcOnlyTzdb scenario1_rule 4 scenario1_event_type "UTC" "UTC"
        [] [] [] [] scenario1_buffer 1 [] 0 := by
  refine ⟨?_, ?_, ?_, ?_⟩
  · intro event_type s e bookings k hng
    simp [get_available_spots_for_slot, hng]
  · intro s e bookings event_type k j hng
    simp [is_slot_conflicting_with_bookings, bookingGroupException, hng]
  · intro date st en event_type org_tz invitee_tz bt rb eb ebt bs k ab now l h
    exact generate_slots_for_time_range_ok_nil h
  · have h2 : generate_slots_for_rule utcOnlyTzdb scenario1_rule 4 scenario1_event_type
        "UTC" "UTC" [] [] [] [] scenario1_buffer 2 [] 0 =
        .error nameErrorInviteeTimezone := rfl
    have h1 : generate_slots_for_rule utcOnlyTzdb scenario1_rule 4 scenario1_event_type
        "UTC" "UTC" [] [] [] [] scenario1_buffer 1 [] 0 =
        .error nameErrorInviteeTimezone := rfl
    exact h2.trans h1.symm

/-- Witness for `C10_non_group_spots` at concrete inputs: the non-group
scenario-1 event type with a two-attendee request. -/
theorem C10_non_group_spots_witness :
    scenario1_event_type.is_group_event = false ∧
    get_available_spots_for_slot scenario1_event_type 378000 379800 [] 2 =
      (if 2 = 1 then 1 else 0) ∧
    is_slot_conflicting_with_bookings 378000 379800 [c1_booking_exact]
        scenario1_event_type 2 =
      is_slot_conflicting_with_bookings 378000 379800 [c1_booking_exact]
        scenario1_event_type 1 ∧
    (generate_slots_for_time_range 4 32400 33000 scenario1_event_type utcTz utcTz [] [] []
        [] scenario1_buffer 2 [] 0 = .ok [] ∧ ([] : List Slot) = []) := by
  have hng : scenario1_event_type.is_group_event = false := rfl
  have hgen : generate_slots_for_time_range 4 32400 33000 scenario1_event_type utcTz utcTz
      [] [] [] [] scenario1_buffer 2 [] 0 = .ok [] := rfl
  exact ⟨hng, C10_non_group_spots.1 scenario1_event_type 378000 379800 [] 2 hng,
    C10_non_group_spots.2.1 378000 379800 [c1_booking_exact] scenario1_event_type 2 1 hng,
    hgen, C10_non_group_spots.2.2.1 4 32400 33000 scenario1_event_type utcTz utcTz [] [] []
      [] scenario1_buffer 2 [] 0 [] hgen⟩

end MeetX
